/-
Verification of the USBDevice USB 2.0 device-side protocol stack
(IntergatedCircuits/USBDevice) against its natural-language specification.

The development shallow-embeds the relevant C modules as Lean functions:
  * src/Device/usbd_ep.c    : endpoint transfer bookkeeping (USBD_EpSend / USBD_EpReceive / USBD_EpRequest)
  * src/Device/usbd_ctrl.c  : EP0 control-transfer engine
  * src/Device/usbd_if.c    : interface/configuration management (USBD_IfConfig)
  * src/Device/usbd.c       : standard device requests (USBD_SetConfig)
  * src/Class/MSC/usbd_msc.c, usbd_msc_scsi.c : Bulk-Only Transport + SCSI engine
  * src/Class/CDC/usbd_ncm.c : NCM transmit-path NTB assembly

Machine integers are modelled as Nat; the C code's byte/halfword truncations
are written as explicit `% 256` / `% 65536` where they matter.  External
collaborators (the peripheral driver PD, logical-unit storage callbacks) are
modelled by recording the submitted operations in event lists, respectively by
boolean result fields, following the PD contract in the specification.
-/
import Mathlib

namespace USBDev

/-- USBD_ReturnType (usbd_types.h): USB device operation results. -/
inductive Ret where
  | ok      -- USBD_E_OK
  | error   -- USBD_E_ERROR
  | busy    -- USBD_E_BUSY
  | invalid -- USBD_E_INVALID
deriving DecidableEq, Repr

/-- USB_EndPointStateType (usb_types.h). -/
inductive EpSt where
  | closed
  | idle
  | stall
  | setupSt  -- USB_EP_STATE_SETUP
  | data
  | status
deriving DecidableEq, Repr

/-- USB_EndPointType (usb_types.h). -/
inductive EpTy where
  | control
  | isochronous
  | bulk
  | interrupt
deriving DecidableEq, Repr

/-- USB_DirectionType (usb_types.h). -/
inductive Dir where
  | dOut -- USB_DIRECTION_OUT = 0
  | dIn  -- USB_DIRECTION_IN = 1
deriving DecidableEq, Repr

/-- USB_ReqRecipientType (usb_types.h). -/
inductive Recipient where
  | device
  | iface
  | endpoint
  | other
deriving DecidableEq, Repr

/-- USB_RequestType (usb_types.h): standard / class / vendor. -/
inductive ReqKind where
  | standard
  | classReq
  | vendor
deriving DecidableEq, Repr

/-- USB_SetupRequestType (usb_types.h): the 8-byte Setup packet, with the
bmRequestType bit fields broken out. -/
structure SetupPkt where
  recipient : Recipient
  rkind : ReqKind
  direction : Dir
  request : Nat  -- bRequest
  value : Nat    -- wValue (16 bit)
  index : Nat    -- wIndex (16 bit)
  length : Nat   -- wLength (16 bit)
deriving DecidableEq, Repr

/-- USB_REQ_* standard request codes (usb_types.h). -/
def USB_REQ_GET_STATUS : Nat := 0x00
def USB_REQ_CLEAR_FEATURE : Nat := 0x01
def USB_REQ_SET_FEATURE : Nat := 0x03
def USB_REQ_SET_ADDRESS : Nat := 0x05
def USB_REQ_SET_CONFIGURATION : Nat := 0x09

/-- USB_FEATURE_EP_HALT (usb_types.h). -/
def USB_FEATURE_EP_HALT : Nat := 0

/-- USBD_MAX_CONFIGURATION_COUNT (usbd_types.h). -/
def USBD_MAX_CONFIGURATION_COUNT : Nat := 1

/-- USB_EP_BULK_FS_MPS (usb_types.h). -/
def USB_EP_BULK_FS_MPS : Nat := 64

/-- USBD_EpHandleType (usbd_types.h): per-endpoint bookkeeping.  The
`Transfer` sub-record is represented by its `Length` field (`transferLen`),
which the PD maintains as the length of the current transfer; the data
pointer itself carries no information at this abstraction level. -/
structure EpHandle where
  transferLen : Nat
  mps : Nat
  ty : EpTy
  state : EpSt
  ifNum : Nat
deriving DecidableEq, Repr

/-- Events observable at the core's external interfaces: PD submissions and
class-interface callback invocations. -/
inductive CoreEv where
  | pdEpSend (epAddr len : Nat)     -- USBD_PD_EpSend
  | pdEpReceive (epAddr len : Nat)  -- USBD_PD_EpReceive
  | pdSetAddress (addr : Nat)       -- USBD_PD_SetAddress
  | ifDataStage (ifNum : Nat)       -- USBD_IfClass_DataStage
  | ifInit (ifNum : Nat)            -- USBD_IfClass_Init
  | ifDeinit (ifNum : Nat)          -- USBD_IfClass_Deinit
  | ifInData (ifNum epAddr : Nat)   -- USBD_IfClass_InData
  | ifOutData (ifNum epAddr : Nat)  -- USBD_IfClass_OutData
deriving DecidableEq, Repr

/-- USBD_HandleType (usbd_types.h), restricted to the fields the device core
and control engine read and write.  Endpoint tables are total maps from the
endpoint number/address to handles, mirroring `EP.IN[]` / `EP.OUT[]`;
`maxEpCount` is the compile-time `USBD_MAX_EP_COUNT`; `ifCount` is the number
of mounted interfaces.  `events` records the PD calls and interface callbacks
issued, in order. -/
structure CoreDev where
  setup : SetupPkt
  configSelector : Nat
  ifCount : Nat
  ifAlts : List Nat          -- AltSelector of each mounted interface, in slot order
  maxEpCount : Nat
  inEps : Nat → EpHandle     -- EP.IN, indexed by endpoint number
  outEps : Nat → EpHandle    -- EP.OUT, indexed as the source indexes it
  events : List CoreEv

/-- Write an entry of an endpoint table. -/
def epUpd (t : Nat → EpHandle) (i : Nat) (e : EpHandle) : Nat → EpHandle :=
  fun j => if j = i then e else t j

/-! ## usbd_ep.c : USBD_EpSend / USBD_EpReceive -/

/-- USBD_EpSend (usbd_ep.c): start an IN transfer on `EP.IN[epAddr & 0xF]`.
Accepted only from `Idle` state or on an isochronous endpoint; the PD then
records the transfer (`Transfer.Length := len`) and the state becomes `Data`.
Otherwise returns `Busy` without touching anything. -/
def USBD_EpSend (dev : CoreDev) (epAddr len : Nat) : Ret × CoreDev :=
  let i := epAddr % 16
  let ep := dev.inEps i
  if ep.state = .idle ∨ ep.ty = .isochronous then
    (.ok, { dev with
              inEps := epUpd dev.inEps i { ep with state := .data, transferLen := len },
              events := dev.events ++ [.pdEpSend epAddr len] })
  else
    (.busy, dev)

/-- USBD_EpReceive (usbd_ep.c): arm an OUT transfer on `EP.OUT[epAddr]`.
Same acceptance rule as USBD_EpSend. -/
def USBD_EpReceive (dev : CoreDev) (epAddr len : Nat) : Ret × CoreDev :=
  let ep := dev.outEps epAddr
  if ep.state = .idle ∨ ep.ty = .isochronous then
    (.ok, { dev with
              outEps := epUpd dev.outEps epAddr { ep with state := .data, transferLen := len },
              events := dev.events ++ [.pdEpReceive epAddr len] })
  else
    (.busy, dev)

/-! ## usbd_ctrl.c : EP0 control transfer engine -/

/-- USBD_CtrlSendError (usbd_ctrl.c): stall both halves of EP0. -/
def USBD_CtrlSendError (dev : CoreDev) : CoreDev :=
  { dev with
      inEps := epUpd dev.inEps 0 { dev.inEps 0 with state := .stall },
      outEps := epUpd dev.outEps 0 { dev.outEps 0 with state := .stall } }

/-- USBD_CtrlSendStatus (usbd_ctrl.c): EP0 IN enters Status state,
a ZLP send is submitted to the PD. -/
def USBD_CtrlSendStatus (dev : CoreDev) : CoreDev :=
  { dev with
      inEps := epUpd dev.inEps 0 { dev.inEps 0 with state := .status, transferLen := 0 },
      events := dev.events ++ [.pdEpSend 0x80 0] }

/-- USBD_CtrlReceiveStatus (usbd_ctrl.c): EP0 OUT enters Status state,
a ZLP reception is armed at the PD. -/
def USBD_CtrlReceiveStatus (dev : CoreDev) : CoreDev :=
  { dev with
      outEps := epUpd dev.outEps 0 { dev.outEps 0 with state := .status, transferLen := 0 },
      events := dev.events ++ [.pdEpReceive 0 0] }

/-- USBD_CtrlSendData (usbd_ctrl.c): send an EP0 IN data stage.
Only permitted while the Setup packet requests an IN data stage and EP0 OUT
is in Setup state; the queued length is clamped to `Setup.Length`. -/
def USBD_CtrlSendData (dev : CoreDev) (len : Nat) : Ret × CoreDev :=
  if dev.setup.direction = .dIn ∧ (dev.outEps 0).state = .setupSt then
    let len' := if dev.setup.length < len then dev.setup.length else len
    (.ok, { dev with
              inEps := epUpd dev.inEps 0
                { dev.inEps 0 with state := .data, transferLen := len' },
              events := dev.events ++ [.pdEpSend 0x80 len'] })
  else
    (.error, dev)

/-- USBD_CtrlReceiveData (usbd_ctrl.c): arm an EP0 OUT data stage.
Only permitted while the Setup packet requests an OUT data stage and EP0 OUT
is in Setup state; the armed length is clamped to `Setup.Length`. -/
def USBD_CtrlReceiveData (dev : CoreDev) (len : Nat) : Ret × CoreDev :=
  if dev.setup.direction = .dOut ∧ (dev.outEps 0).state = .setupSt then
    let len' := if dev.setup.length < len then dev.setup.length else len
    (.ok, { dev with
              outEps := epUpd dev.outEps 0
                { dev.outEps 0 with state := .data, transferLen := len' },
              events := dev.events ++ [.pdEpReceive 0 len'] })
  else
    (.error, dev)

/-- USBD_CtrlInCallback (usbd_ctrl.c): completion of an EP0 IN transfer.
If the transferred length is an MPS multiple of at least one packet and below
`Setup.Length`, an extra ZLP is transmitted (the C multiple test is the mask
`len & (MPS - 1) == 0`, written here with `Nat.land`); otherwise EP0 IN goes
Idle and, for an IN data stage, the interface `DataStage` callback fires
(configured, interface-recipient requests only) and the OUT status stage is
started.  For OUT/no-data requests, a completed SET_ADDRESS is applied to the
PD now (`USBD_SET_ADDRESS_IMMEDIATE != 1` build). -/
def USBD_CtrlInCallback (dev : CoreDev) : CoreDev :=
  let ep0 := dev.inEps 0
  if ep0.transferLen < dev.setup.length ∧ ep0.mps ≤ ep0.transferLen ∧
     Nat.land ep0.transferLen (ep0.mps - 1) = 0 then
    { dev with
        inEps := epUpd dev.inEps 0 { ep0 with transferLen := 0 },
        events := dev.events ++ [.pdEpSend 0x80 0] }
  else
    let dev1 := { dev with inEps := epUpd dev.inEps 0 { ep0 with state := .idle } }
    if dev1.setup.direction = .dIn then
      let dev2 :=
        if dev1.configSelector ≠ 0 ∧ dev1.setup.recipient = .iface then
          { dev1 with events := dev1.events ++ [.ifDataStage (dev1.setup.index % 256)] }
        else dev1
      USBD_CtrlReceiveStatus dev2
    else if dev1.setup.recipient = .device ∧ dev1.setup.rkind = .standard ∧
            dev1.setup.request = USB_REQ_SET_ADDRESS then
      { dev1 with events := dev1.events ++ [.pdSetAddress (dev1.setup.value % 128)] }
    else dev1

/-- The tail of USBD_SetupCallback (usbd_ctrl.c): EP0 OUT enters Setup state,
the request is routed to the recipient's handler, then a rejected request
stalls EP0, a zero-`wLength` accepted request starts the status stage, and an
accepted request with data lets the data stage follow. -/
def USBD_SetupCallbackWith (handler : CoreDev → Ret × CoreDev) (dev : CoreDev) : CoreDev :=
  let dev0 := { dev with outEps := epUpd dev.outEps 0 { dev.outEps 0 with state := .setupSt } }
  let (retval, dev1) := handler dev0
  if retval ≠ .ok then
    USBD_CtrlSendError dev1
  else if dev1.setup.length = 0 then
    USBD_CtrlSendStatus dev1
  else
    dev1

/-! ## usbd_if.c : USBD_IfConfig -/

/-- USBD_IfConfig (usbd_if.c): change the active configuration.  When the
selector differs: a previously active configuration first has all interfaces
deinitialized (in mount order) with their alternate selectors reset, the
selector is updated, and a non-zero new configuration initializes all
interfaces (in mount order). -/
def USBD_IfConfig (dev : CoreDev) (cfgNum : Nat) : CoreDev :=
  if dev.configSelector ≠ cfgNum then
    let dev1 :=
      if dev.configSelector ≠ 0 then
        { dev with
            events := dev.events ++ (List.range dev.ifCount).map .ifDeinit,
            ifAlts := dev.ifAlts.map (fun _ => 0) }
      else dev
    let dev2 := { dev1 with configSelector := cfgNum }
    if dev2.configSelector ≠ 0 then
      { dev2 with events := dev2.events ++ (List.range dev2.ifCount).map .ifInit }
    else dev2
  else dev

/-! ## usbd.c : USBD_SetConfig -/

/-- USBD_SetConfig (usbd.c): the SET_CONFIGURATION handler.  The C code
truncates `Setup.Value` to `uint8_t` before comparing with
`USBD_MAX_CONFIGURATION_COUNT`. -/
def USBD_SetConfig (dev : CoreDev) : Ret × CoreDev :=
  let cfgNum := dev.setup.value % 256
  if cfgNum ≤ USBD_MAX_CONFIGURATION_COUNT then
    (.ok, USBD_IfConfig dev cfgNum)
  else
    (.invalid, dev)

/-! ## usbd_ep.c : USBD_EpRequest -/

/-- USBD_EpAddr2Ref (usbd_internal.h): IN table for addresses above 0x7F
(indexed by the endpoint number), OUT table otherwise (indexed by the raw
address, exactly as the source does). -/
def USBD_EpAddr2Ref (dev : CoreDev) (epAddr : Nat) : EpHandle :=
  if 0x7F < epAddr then dev.inEps (epAddr % 16) else dev.outEps epAddr

/-- Write back through the same addressing as `USBD_EpAddr2Ref`. -/
def epAddrUpd (dev : CoreDev) (epAddr : Nat) (e : EpHandle) : CoreDev :=
  if 0x7F < epAddr then { dev with inEps := epUpd dev.inEps (epAddr % 16) e }
  else { dev with outEps := epUpd dev.outEps epAddr e }

/-- USBD_EpRequest (usbd_ep.c): standard endpoint-recipient request handling.
Requests addressing endpoint number 0, or any endpoint while unconfigured, or
numbers at or above `USBD_MAX_EP_COUNT`, fall through with `Invalid`.
Otherwise SET_FEATURE/CLEAR_FEATURE of the HALT feature and GET_STATUS are
served; CLEAR_FEATURE of a halted endpoint resets its transfer length and
fires the owning interface's completion callback with zero length. -/
def USBD_EpRequest (dev : CoreDev) : Ret × CoreDev :=
  let epAddr := dev.setup.index % 256
  let epNum := epAddr % 16
  if dev.maxEpCount ≤ epNum ∨ epNum = 0 ∨ dev.configSelector = 0 then
    (.invalid, dev)
  else if dev.setup.rkind = .standard then
    let ep := USBD_EpAddr2Ref dev epAddr
    if dev.setup.request = USB_REQ_SET_FEATURE then
      if dev.setup.value = USB_FEATURE_EP_HALT then
        if ep.state ≠ .stall then
          (.ok, epAddrUpd dev epAddr { ep with state := .stall })
        else (.ok, dev)
      else (.invalid, dev)
    else if dev.setup.request = USB_REQ_CLEAR_FEATURE then
      if dev.setup.value = USB_FEATURE_EP_HALT then
        if ep.state = .stall then
          let dev1 := epAddrUpd dev epAddr { ep with state := .idle, transferLen := 0 }
          if epAddr ≠ epNum then
            (.ok, { dev1 with events := dev1.events ++ [.ifInData ep.ifNum epAddr] })
          else
            (.ok, { dev1 with events := dev1.events ++ [.ifOutData ep.ifNum epAddr] })
        else (.ok, dev)
      else (.invalid, dev)
    else if dev.setup.request = USB_REQ_GET_STATUS then
      USBD_CtrlSendData dev 2
    else
      (.invalid, dev)
  else
    (.invalid, dev)

/-! ## Interface mounting (usbd_msc.c / usbd_ncm.c) -/

/-- Device endpoint-table entry as written at mount time. -/
structure MountEp where
  ty : EpTy
  mps : Nat
  ifNum : Nat
deriving DecidableEq, Repr

/-- The slice of USBD_HandleType that interface mounting manipulates:
the interface reference table `IF[]` (slots store an interface identifier)
with its fill count, and the endpoint table keyed by endpoint address. -/
structure MountDev where
  ifCount : Nat
  maxIfCount : Nat          -- USBD_MAX_IF_COUNT
  ifSlots : Nat → Option Nat
  eps : Nat → MountEp

/-- NCM_NOT_PACKET_SIZE (usbd_ncm.c). -/
def NCM_NOT_PACKET_SIZE : Nat := 8

/-- MSC_DATA_PACKET_SIZE / NCM_DATA_PACKET_SIZE for a Full-Speed build
(`USBD_HS_SUPPORT == 0`): USB_EP_BULK_FS_MPS. -/
def MSC_DATA_PACKET_SIZE : Nat := USB_EP_BULK_FS_MPS

def mountEpUpd (t : Nat → MountEp) (i : Nat) (e : MountEp) : Nat → MountEp :=
  fun j => if j = i then e else t j

def slotUpd (t : Nat → Option Nat) (i : Nat) (v : Nat) : Nat → Option Nat :=
  fun j => if j = i then some v else t j

/-- USBD_MSC_MountInterface (usbd_msc.c): mounts when `IfCount <
USBD_MAX_IF_COUNT`, writing type, MPS and owning interface number for the
bulk IN and OUT endpoints and storing the interface in a single slot
(`IfCount` is incremented once); returns Error when the slots are exhausted. -/
def USBD_MSC_MountInterface (dev : MountDev) (itfId inEpNum outEpNum : Nat) :
    Ret × MountDev :=
  if dev.ifCount < dev.maxIfCount then
    let eps1 := mountEpUpd dev.eps inEpNum
      { ty := .bulk, mps := MSC_DATA_PACKET_SIZE, ifNum := dev.ifCount }
    let eps2 := mountEpUpd eps1 outEpNum
      { ty := .bulk, mps := MSC_DATA_PACKET_SIZE, ifNum := dev.ifCount }
    (.ok, { dev with
              eps := eps2,
              ifSlots := slotUpd dev.ifSlots dev.ifCount itfId,
              ifCount := dev.ifCount + 1 })
  else
    (.error, dev)

/-- USBD_NCM_MountInterface (usbd_ncm.c): mounts when `IfCount <
USBD_MAX_IF_COUNT - 1`, writing the notification (interrupt), bulk IN and
bulk OUT endpoint entries, and storing the interface in two consecutive
slots (`IfCount` is incremented twice); returns Error otherwise. -/
def USBD_NCM_MountInterface (dev : MountDev) (itfId notEpNum inEpNum outEpNum : Nat) :
    Ret × MountDev :=
  if dev.ifCount < dev.maxIfCount - 1 then
    let eps1 := mountEpUpd dev.eps notEpNum
      { ty := .interrupt, mps := NCM_NOT_PACKET_SIZE, ifNum := dev.ifCount }
    let eps2 := mountEpUpd eps1 inEpNum
      { ty := .bulk, mps := MSC_DATA_PACKET_SIZE, ifNum := dev.ifCount }
    let eps3 := mountEpUpd eps2 outEpNum
      { ty := .bulk, mps := MSC_DATA_PACKET_SIZE, ifNum := dev.ifCount }
    let slots1 := slotUpd dev.ifSlots dev.ifCount itfId
    let slots2 := slotUpd slots1 (dev.ifCount + 1) itfId
    (.ok, { dev with eps := eps3, ifSlots := slots2, ifCount := dev.ifCount + 2 })
  else
    (.error, dev)

/-! ## usbd_ncm.c : NCM transmit path (IN NTB assembly) -/

/-- NTBStateType (usbd_ncm.c). -/
inductive NtbSt where
  | empty
  | processing
  | transferring
  | ready
deriving DecidableEq, Repr

/-- `(n + 3) & ~3` on the C side: round up to a multiple of 4. -/
def align4 (n : Nat) : Nat := (n + 3) / 4 * 4

/-- sizeof the packed NTH16 header struct (usbd_ncm.c): 4+2+2+2+2 bytes. -/
def sizeofNTH16 : Nat := 12

/-- sizeof the packed NDP16 struct (usbd_ncm.c): signature (4) + length (2)
+ next-NDP index (2) + the one built-in `Datagram[1]` entry (4). -/
def sizeofNDP16 : Nat := 12

/-- NCM_MAX_SEGMENT_SIZE (usbd_ncm.c). -/
def NCM_MAX_SEGMENT_SIZE : Nat := 1514

/-- sizeof(USBD_NCM_Datagram16) (usbd_ncm.c). -/
def sizeofDatagram16 : Nat := 4

/-- The transmit half of USBD_NCM_IfHandleType (usbd_ncm.h), `In`: the
double-buffer bookkeeping.  The per-datagram lengths that the C code stores
backwards from the end of the slot buffer are held in `dgLens` (in
allocation order); `dgCount` mirrors `In.DgCount`.  `connected` stands for
`Notify.Connection.Value != 0`. -/
structure NcmIn where
  maxSize : Nat    -- In.MaxSize
  remSize : Nat    -- In.RemSize
  index : Nat      -- In.Index
  dgCount : Nat    -- In.DgCount
  dgLens : List Nat
  fillState : NtbSt
  sendState : NtbSt
  page : Nat       -- In.Page
  connected : Bool
deriving DecidableEq, Repr

/-- The transmit-state initialization performed by USBD_NCM_Connect
(usbd_ncm.c): `FillState = EMPTY`, `SendState = READY`, page 0, no
datagrams, `Index = sizeof(NTH16)`,
`RemSize = MaxSize - Index - sizeof(NDP16)`. -/
def ncm_connectInit (maxSize : Nat) : NcmIn :=
  { maxSize := maxSize
    remSize := maxSize - sizeofNTH16 - sizeofNDP16
    index := sizeofNTH16
    dgCount := 0
    dgLens := []
    fillState := .empty
    sendState := .ready
    page := 0
    connected := true }

/-- USBD_NCM_AllocDatagram (usbd_ncm.c): reserve `roundup4 length` bytes at
the running `Index` and push the raw length onto the backward length list.
Returns the reserved offset, or none when rejected.  Note that the C code
sets `FillState = NTB_PROCESSING` before checking the remaining space, so a
space failure still leaves that state behind. -/
def USBD_NCM_AllocDatagram (s : NcmIn) (length : Nat) : Option Nat × NcmIn :=
  if s.connected ∧ length ≤ NCM_MAX_SEGMENT_SIZE ∧ s.fillState ≠ .processing then
    let wlen := align4 length
    let addlen := wlen + sizeofDatagram16
    let s1 := { s with fillState := .processing }
    if addlen ≤ s1.remSize then
      (some s1.index,
        { s1 with
            dgLens := s1.dgLens ++ [length]
            dgCount := s1.dgCount + 1
            index := s1.index + wlen
            remSize := s1.remSize - addlen })
    else
      (none, s1)
  else
    (none, s)

/-- The emitted NTB, as its header/NDP fields and datagram pointer entries;
`sentLen` is the byte count handed to `USBD_EpSend`. -/
structure NTB where
  blockLength : Nat
  ndpIndex : Nat
  ndpLength : Nat
  entries : List (Nat × Nat)   -- (Index, Length) pairs, terminator included
  sentLen : Nat
deriving DecidableEq, Repr

/-- The NDP entry loop of ncm_sendNTB: the first datagram sits at
`sizeof(NTH16)`, each further index is `(prev index + prev length + 3) & ~3`. -/
def ncmDatagramEntries (off : Nat) : List Nat → List (Nat × Nat)
  | [] => []
  | l :: ls => (off, l) :: ncmDatagramEntries (align4 (off + l)) ls

/-- ncm_sendNTB (usbd_ncm.c): write the NDP16 header
(`Length = sizeof(NDP16) + DgCount*sizeof(Datagram16)`, next index 0) at
`In.Index`, fill the NTH16 (`BlockLength = sizeof(NTH16) + In.Index +
NDP.Length`, `NdpIndex = In.Index`), copy the backward length list into the
entries, compute the entry indexes, append the zero terminator, submit the
send with `BlockLength` bytes, then swap pages and reset the fill state. -/
def ncm_sendNTB (s : NcmIn) (page : Nat) : NTB × NcmIn :=
  let ptLength := sizeofNDP16 + s.dgCount * sizeofDatagram16
  let blockLength := sizeofNTH16 + s.index + ptLength
  let ntb : NTB :=
    { blockLength := blockLength
      ndpIndex := s.index
      ndpLength := ptLength
      entries := ncmDatagramEntries sizeofNTH16 (s.dgLens.take s.dgCount) ++ [(0, 0)]
      sentLen := blockLength }
  (ntb,
    { s with
        page := 1 - page
        dgCount := 0
        dgLens := []
        index := sizeofNTH16
        remSize := s.maxSize - sizeofNTH16 - sizeofNDP16
        fillState := .empty
        sendState := .transferring })

/-- USBD_NCM_SetDatagram (usbd_ncm.c): finalize the allocation; when the
other page is still being sent the page is only marked ready, otherwise the
NTB is assembled and sent immediately. -/
def USBD_NCM_SetDatagram (s : NcmIn) : Ret × NcmIn × Option NTB :=
  if s.fillState = .processing then
    if s.sendState ≠ .empty then
      (.ok, { s with fillState := .ready }, none)
    else
      let (ntb, s') := ncm_sendNTB s s.page
      (.ok, s', some ntb)
  else
    (.invalid, s, none)

/-- ncm_inData (usbd_ncm.c): at the completion of a notification or data IN
transfer, mark the sent buffer empty and transmit the other page when ready.
`completedIsData0` tells whether the completed transfer's buffer was
`In.Data[0]` (false for the notification buffer); the C code derives the
page to send from that pointer comparison. -/
def ncm_inData (s : NcmIn) (completedIsData0 : Bool) : NcmIn × Option NTB :=
  let s1 := { s with sendState := .empty }
  if s1.fillState = .ready then
    let page := if completedIsData0 then 1 else 0
    let (ntb, s') := ncm_sendNTB s1 page
    (s', some ntb)
  else
    (s1, none)

/-! ## usbd_msc.c / usbd_msc_scsi.c : Bulk-Only Transport + SCSI -/

/-- USBD_MSC_StateType (usbd_msc.h). -/
inductive MscXSt where
  | commandOut
  | dataOut
  | dataIn
  | statusIn
  | stall
deriving DecidableEq, Repr

/-- USBD_MSC_StatusType (usbd_msc.h). -/
inductive MscStatus where
  | normal
  | recovery
  | error
deriving DecidableEq, Repr

/-- USBD_MSC_CSWStatusType (usbd_msc.h). -/
inductive CswStatus where
  | passed
  | failed
  | phaseError
deriving DecidableEq, Repr

/-- USBD_MSC_LUType / USBD_MSC_LUStatusType (usbd_msc.h): the logical unit
as the MSC engine sees it.  `readOk`/`writeOk` are the results of the
application's `Read`/`Write` callbacks; `inquiryAddLength` is the
`AddLength` field of the unit's standard inquiry data. -/
structure LU where
  blockCount : Nat
  blockSize : Nat
  ready : Bool
  writable : Bool
  inquiryAddLength : Nat
  readOk : Bool
  writeOk : Bool
deriving DecidableEq, Repr

/-- USBD_MSC_CommandBlockWrapperType (usbd_msc.h): a received CBW. -/
structure MscCBW where
  dSignature : Nat
  dTag : Nat
  dDataLength : Nat
  bmFlags : Nat
  bLUN : Nat
  bCBLength : Nat
  CB : List Nat   -- the 16 command block bytes
deriving DecidableEq, Repr

/-- sizeof(USBD_MSC_CommandBlockWrapperType): 31 bytes packed. -/
def sizeofCBW : Nat := 31

/-- sizeof(USBD_MSC_CommandStatusWrapperType): 13 bytes packed. -/
def sizeofCSW : Nat := 13

/-- USBD_MSC_BUFFER_SIZE (usbd_msc.h). -/
def USBD_MSC_BUFFER_SIZE : Nat := 512

/-- The CBW signature 'USBC' (usbd_msc.c). -/
def cbwSignature : Nat := 0x43425355

/-- SCSI sense keys / additional sense codes used (usbd_msc_private.h). -/
def SCSI_SKEY_NOT_READY : Nat := 2
def SCSI_SKEY_HARDWARE_ERROR : Nat := 4
def SCSI_SKEY_ILLEGAL_REQUEST : Nat := 5
def SCSI_ASC_WRITE_FAULT : Nat := 0x03
def SCSI_ASC_UNRECOVERED_READ_ERROR : Nat := 0x11
def SCSI_ASC_INVALID_CDB : Nat := 0x20
def SCSI_ASC_ADDRESS_OUT_OF_RANGE : Nat := 0x21
def SCSI_ASC_INVALID_FIELD_IN_COMMAND : Nat := 0x24
def SCSI_ASC_MEDIUM_NOT_PRESENT : Nat := 0x3A
def SCSI_ASC_WRITE_PROTECTED : Nat := 0x27

/-- USBD_MSC_IfHandleType (usbd_msc.h), the mutable class context: the
stored CBW, the CSW under construction, transfer state, error status, last
sense data and the SCSI address/remaining-length counters. -/
structure MscItf where
  cbw : MscCBW
  cswTag : Nat
  cswResidue : Nat
  cswStatus : CswStatus
  state : MscXSt
  status : MscStatus
  senseKey : Nat
  senseAsc : Nat
  scsiAddress : Nat
  scsiRemLength : Nat
  maxLUN : Nat
deriving DecidableEq, Repr

/-- Data-endpoint activity of the MSC function: completed data transfers
(with their byte counts), the dispatch of a valid CBW to
`SCSI_ProcessCommand`, and the submission of a CSW (with its field values). -/
inductive MscEv where
  | dataIn (n : Nat)
  | dataOut (n : Nat)
  | dispatch
  | csw (tag residue : Nat) (st : CswStatus)
deriving DecidableEq, Repr

/-- The MSC interface together with its two bulk endpoints' handles and the
logical-unit table (`LUs`). -/
structure MscDev where
  inEp : EpHandle
  outEp : EpHandle
  itf : MscItf
  lus : Nat → LU
  events : List MscEv

/-- The core acceptance rule of USBD_EpSend/USBD_EpReceive (usbd_ep.c) at
the level of a single endpoint handle: accepted from Idle or on an
isochronous endpoint, recording the transfer length. -/
def epTransferStart (ep : EpHandle) (len : Nat) : Ret × EpHandle :=
  if ep.state = .idle ∨ ep.ty = .isochronous then
    (.ok, { ep with state := .data, transferLen := len })
  else
    (.busy, ep)

/-- SCSI_PutSenseCode (usbd_msc_scsi.c): store the sense pair and fail the CSW. -/
def SCSI_PutSenseCode (d : MscDev) (skey asc : Nat) : MscDev :=
  { d with itf := { d.itf with senseKey := skey, senseAsc := asc, cswStatus := .failed } }

/-- Byte `i` of the command block. -/
def cbByte (d : MscDev) (i : Nat) : Nat := d.itf.cbw.CB.getD i 0

/-- The logical unit selected by the CBW (MSC_GetLU). -/
def mscLU (d : MscDev) : LU := d.lus d.itf.cbw.bLUN

/-- SCSI_ProcessRead (usbd_msc_scsi.c): read up to a buffer's worth of the
remaining data from the LU and send it on the bulk IN endpoint, advancing
the SCSI address and decrementing the remaining length and the CSW residue;
when nothing remains the next IN transfer will be the CSW.  A failed LU read
records a hardware-error sense instead.  The completed chunk is recorded as
a `dataIn` event. -/
def SCSI_ProcessRead (d : MscDev) : MscDev :=
  let len := min USBD_MSC_BUFFER_SIZE d.itf.scsiRemLength
  if (mscLU d).readOk then
    let inEp' := (epTransferStart d.inEp len).2
    let rem' := d.itf.scsiRemLength - len
    { d with
        inEp := inEp'
        events := d.events ++ [.dataIn len]
        itf := { d.itf with
                   scsiAddress := d.itf.scsiAddress + len
                   scsiRemLength := rem'
                   cswResidue := d.itf.cswResidue - len
                   state := if rem' = 0 then .statusIn else d.itf.state } }
  else
    SCSI_PutSenseCode d SCSI_SKEY_HARDWARE_ERROR SCSI_ASC_UNRECOVERED_READ_ERROR

/-- SCSI_ProcessWrite (usbd_msc_scsi.c): write the just-received chunk to
the LU, advance the counters, and arm the reception of the next chunk while
data remains.  The completed chunk is recorded as a `dataOut` event.  A
failed LU write records a write-fault sense. -/
def SCSI_ProcessWrite (d : MscDev) : MscDev :=
  let len := min USBD_MSC_BUFFER_SIZE d.itf.scsiRemLength
  if (mscLU d).writeOk then
    let rem' := d.itf.scsiRemLength - len
    let d1 :=
      { d with
          events := d.events ++ [.dataOut len]
          itf := { d.itf with
                     scsiAddress := d.itf.scsiAddress + len
                     scsiRemLength := rem'
                     cswResidue := d.itf.cswResidue - len } }
    if 0 < rem' then
      { d1 with outEp := (epTransferStart d1.outEp len).2 }
    else d1
  else
    SCSI_PutSenseCode d SCSI_SKEY_HARDWARE_ERROR SCSI_ASC_WRITE_FAULT

/-- SCSI_Inquiry (usbd_msc_scsi.c): response length of the inquiry data —
a 5-byte empty VPD page when EVPD is set, otherwise `AddLength + 4`,
clamped to the big-endian allocation length at CB bytes 3..4. -/
def SCSI_Inquiry (d : MscDev) : Nat :=
  let allocLen := cbByte d 3 * 256 + cbByte d 4
  let respLen := if cbByte d 1 ≠ 0 then 5 else (mscLU d).inquiryAddLength + 4
  min respLen allocLen

/-- SCSI_ReadCapacity10 (usbd_msc_scsi.c): 8 response bytes when the unit is
ready, otherwise a not-ready sense and no data. -/
def SCSI_ReadCapacity10 (d : MscDev) : MscDev × Nat :=
  if (mscLU d).ready then (d, 8)
  else (SCSI_PutSenseCode d SCSI_SKEY_NOT_READY SCSI_ASC_MEDIUM_NOT_PRESENT, 0)

/-- SCSI_ReadFormatCapacity (usbd_msc_scsi.c): a 12-byte one-entry capacity
list, clamped to the big-endian allocation length at CB bytes 7..8. -/
def SCSI_ReadFormatCapacity (d : MscDev) : Nat :=
  min 12 (cbByte d 7 * 256 + cbByte d 8)

/-- SCSI_ModeSense6 (usbd_msc_scsi.c): an 8-byte zero header, clamped to the
single-byte allocation length at CB byte 4. -/
def SCSI_ModeSense6 (d : MscDev) : Nat := min 8 (cbByte d 4)

/-- SCSI_ModeSense10 (usbd_msc_scsi.c): an 8-byte zero header, clamped to
the big-endian allocation length at CB bytes 6..7. -/
def SCSI_ModeSense10 (d : MscDev) : Nat := min 8 (cbByte d 6 * 256 + cbByte d 7)

/-- SCSI_RequestSense (usbd_msc_scsi.c): 18 bytes of fixed-format sense
data, clamped to the allocation length at CB byte 4. -/
def SCSI_RequestSense (d : MscDev) : Nat := min 18 (cbByte d 4)

/-- SCSI_TestUnitReady (usbd_msc_scsi.c): rejects a non-zero CBW data length
(case 9), then checks unit readiness; never any response data. -/
def SCSI_TestUnitReady (d : MscDev) : MscDev :=
  if d.itf.cbw.dDataLength ≠ 0 then
    SCSI_PutSenseCode d SCSI_SKEY_ILLEGAL_REQUEST SCSI_ASC_INVALID_CDB
  else if !(mscLU d).ready then
    SCSI_PutSenseCode d SCSI_SKEY_NOT_READY SCSI_ASC_MEDIUM_NOT_PRESENT
  else d

/-- SCSI_Verify10 (usbd_msc_scsi.c): the BYTCHK variant (CB byte 1, bit 1)
is rejected; otherwise the leftover SCSI address range is checked against
the unit's block count. -/
def SCSI_Verify10 (d : MscDev) : MscDev :=
  if (cbByte d 1) / 2 % 2 = 1 then
    SCSI_PutSenseCode d SCSI_SKEY_ILLEGAL_REQUEST SCSI_ASC_INVALID_FIELD_IN_COMMAND
  else if (mscLU d).blockCount < d.itf.scsiAddress + d.itf.scsiRemLength then
    SCSI_PutSenseCode d SCSI_SKEY_ILLEGAL_REQUEST SCSI_ASC_ADDRESS_OUT_OF_RANGE
  else d

/-- The big-endian 32-bit block address at CB bytes 2..5 (ntohl). -/
def scsiBlockAddr (d : MscDev) : Nat :=
  cbByte d 2 * 0x1000000 + cbByte d 3 * 0x10000 + cbByte d 4 * 0x100 + cbByte d 5

/-- The big-endian 16-bit transfer length at CB bytes 7..8 (ntohs). -/
def scsiTransferLen (d : MscDev) : Nat := cbByte d 7 * 256 + cbByte d 8

/-- SCSI_Read10 (usbd_msc_scsi.c): validate the direction (case 10), unit
readiness and address range, program the SCSI counters, require the wire
length to equal the CBW data length (cases 4,5), then enter the DataIn state
and send the first chunk.  The returned response length is the CBW data
length (unused thereafter, since the state has left CommandOut). -/
def SCSI_Read10 (d : MscDev) : MscDev × Nat :=
  let lu := mscLU d
  let d' :=
    if d.itf.cbw.bmFlags = 0 then
      SCSI_PutSenseCode d SCSI_SKEY_ILLEGAL_REQUEST SCSI_ASC_INVALID_CDB
    else if !lu.ready then
      SCSI_PutSenseCode d SCSI_SKEY_NOT_READY SCSI_ASC_MEDIUM_NOT_PRESENT
    else if lu.blockCount < scsiBlockAddr d + scsiTransferLen d then
      SCSI_PutSenseCode d SCSI_SKEY_ILLEGAL_REQUEST SCSI_ASC_ADDRESS_OUT_OF_RANGE
    else
      let rem := scsiTransferLen d * lu.blockSize
      let d1 := { d with itf := { d.itf with
                    scsiAddress := scsiBlockAddr d * lu.blockSize
                    scsiRemLength := rem } }
      if d1.itf.cbw.dDataLength ≠ rem then
        SCSI_PutSenseCode d1 SCSI_SKEY_ILLEGAL_REQUEST SCSI_ASC_INVALID_CDB
      else
        SCSI_ProcessRead { d1 with itf := { d1.itf with state := .dataIn } }
  (d', d'.itf.cbw.dDataLength)

/-- SCSI_Write10 (usbd_msc_scsi.c): validate the direction (case 8), unit
readiness, writability and address range, program the SCSI counters, require
the wire length to equal the CBW data length (cases 3,11,13), then enter the
DataOut state and arm the first chunk's reception. -/
def SCSI_Write10 (d : MscDev) : MscDev × Nat :=
  let lu := mscLU d
  if d.itf.cbw.bmFlags ≠ 0 then
    (SCSI_PutSenseCode d SCSI_SKEY_ILLEGAL_REQUEST SCSI_ASC_INVALID_CDB,
      USBD_MSC_BUFFER_SIZE)
  else if !lu.ready then
    (SCSI_PutSenseCode d SCSI_SKEY_NOT_READY SCSI_ASC_MEDIUM_NOT_PRESENT,
      USBD_MSC_BUFFER_SIZE)
  else if !lu.writable then
    (SCSI_PutSenseCode d SCSI_SKEY_NOT_READY SCSI_ASC_WRITE_PROTECTED,
      USBD_MSC_BUFFER_SIZE)
  else if lu.blockCount < scsiBlockAddr d + scsiTransferLen d then
    (SCSI_PutSenseCode d SCSI_SKEY_ILLEGAL_REQUEST SCSI_ASC_ADDRESS_OUT_OF_RANGE,
      USBD_MSC_BUFFER_SIZE)
  else
    let rem := scsiTransferLen d * lu.blockSize
    let d1 := { d with itf := { d.itf with
                  scsiAddress := scsiBlockAddr d * lu.blockSize
                  scsiRemLength := rem } }
    if d1.itf.cbw.dDataLength ≠ rem then
      (SCSI_PutSenseCode d1 SCSI_SKEY_ILLEGAL_REQUEST SCSI_ASC_INVALID_CDB,
        USBD_MSC_BUFFER_SIZE)
    else
      let respLen := min USBD_MSC_BUFFER_SIZE rem
      ({ d1 with
           outEp := (epTransferStart d1.outEp respLen).2
           itf := { d1.itf with state := .dataOut } }, respLen)

/-- The response tail of SCSI_ProcessCommand (usbd_msc_scsi.c): clamp the
handler's response length to the CBW data length and send a response that no
handler transferred itself (CSW still passed, state still CommandOut,
non-empty response), decrementing the residue and queuing the CSW next. -/
def scsiRespond (d1 : MscDev) (respLen : Nat) : MscDev :=
  let respLen' := min respLen d1.itf.cbw.dDataLength
  if d1.itf.cswStatus = .passed ∧ d1.itf.state = .commandOut ∧ 0 < respLen' then
    { d1 with
        inEp := (epTransferStart d1.inEp respLen').2
        events := d1.events ++ [.dataIn respLen']
        itf := { d1.itf with
                   cswResidue := d1.itf.cswResidue - respLen'
                   state := .statusIn } }
  else d1

/-- The operation-code switch of SCSI_ProcessCommand (usbd_msc_scsi.c),
written as an if-chain on CB byte 0; returns the updated device and the
handler's response length. -/
def scsiDispatch (d : MscDev) : MscDev × Nat :=
  if cbByte d 0 = 0x28 then SCSI_Read10 d                      -- SCSI_READ10
  else if cbByte d 0 = 0x2A then SCSI_Write10 d                -- SCSI_WRITE10
  else if cbByte d 0 = 0x2F then (SCSI_Verify10 d, 0)          -- SCSI_VERIFY10
  else if cbByte d 0 = 0x12 then (d, SCSI_Inquiry d)           -- SCSI_INQUIRY
  else if cbByte d 0 = 0x23 then (d, SCSI_ReadFormatCapacity d)
  else if cbByte d 0 = 0x00 then (SCSI_TestUnitReady d, 0)     -- SCSI_TEST_UNIT_READY
  else if cbByte d 0 = 0x03 then (d, SCSI_RequestSense d)      -- SCSI_REQUEST_SENSE
  else if cbByte d 0 = 0x1B then (d, 0)                        -- SCSI_START_STOP_UNIT
  else if cbByte d 0 = 0x1E then (d, 0)
  else if cbByte d 0 = 0x1A then (d, SCSI_ModeSense6 d)        -- SCSI_MODE_SENSE6
  else if cbByte d 0 = 0x5A then (d, SCSI_ModeSense10 d)       -- SCSI_MODE_SENSE10
  else if cbByte d 0 = 0x25 then SCSI_ReadCapacity10 d         -- SCSI_READ_CAPACITY10
  else (SCSI_PutSenseCode d SCSI_SKEY_ILLEGAL_REQUEST SCSI_ASC_INVALID_CDB, 0)

/-- SCSI_ProcessCommand (usbd_msc_scsi.c): dispatch on the operation code,
then apply the response tail `scsiRespond`. -/
def SCSI_ProcessCommand (d : MscDev) : MscDev :=
  scsiRespond (scsiDispatch d).1 (scsiDispatch d).2

/-- msc_receiveCBW (usbd_msc.c): enter CommandOut and arm the reception of
the next 31-byte CBW. -/
def msc_receiveCBW (d : MscDev) : MscDev :=
  let d1 := { d with itf := { d.itf with state := .commandOut } }
  { d1 with outEp := (epTransferStart d1.outEp sizeofCBW).2 }

/-- msc_sendCSW (usbd_msc.c): submit the 13-byte CSW on the bulk IN endpoint
(recorded with its field values) and immediately re-arm CBW reception. -/
def msc_sendCSW (d : MscDev) : MscDev :=
  msc_receiveCBW
    { d with
        inEp := (epTransferStart d.inEp sizeofCSW).2
        events := d.events ++ [.csw d.itf.cswTag d.itf.cswResidue d.itf.cswStatus] }

/-- The CBW validity condition of msc_outData (usbd_msc.c): the transfer
delivered exactly 31 bytes, with the CBW signature, a LUN within range and a
command block length in 1..16. -/
def cbwValid (cbw : MscCBW) (rxLen maxLUN : Nat) : Prop :=
  rxLen = sizeofCBW ∧ cbw.dSignature = cbwSignature ∧ cbw.bLUN ≤ maxLUN ∧
    0 < cbw.bCBLength ∧ cbw.bCBLength ≤ 16

instance (cbw : MscCBW) (rxLen maxLUN : Nat) :
    Decidable (cbwValid cbw rxLen maxLUN) := by
  unfold cbwValid; infer_instance

/-- msc_outData (usbd_msc.c): completion of a bulk OUT transfer.  In
CommandOut the CSW is initialized from the CBW and the block is dispatched
to `SCSI_ProcessCommand` exactly when it is a valid CBW; an invalid block
records an invalid-CDB sense, stalls both endpoints and enters the Stall
state with Error status.  In DataOut a WRITE10 continues.  Any other state
is reached by a ClearFeature on the stalled endpoint: normal status sends
the pending CSW, recovery status (set by BULK_ONLY_RESET) re-arms CBW
reception and returns to normal. -/
def msc_outData (d : MscDev) : MscDev :=
  if d.itf.state = .commandOut then
    let d0 := { d with itf := { d.itf with
                  cswTag := d.itf.cbw.dTag
                  cswResidue := d.itf.cbw.dDataLength
                  cswStatus := .passed } }
    if cbwValid d0.itf.cbw d0.outEp.transferLen d0.itf.maxLUN then
      let d1 := SCSI_ProcessCommand { d0 with events := d0.events ++ [.dispatch] }
      if d1.itf.cbw.dDataLength = 0 then
        msc_sendCSW d1
      else if d1.itf.cswStatus ≠ .passed then
        let d2 := { d1 with itf := { d1.itf with state := .stall } }
        if d2.itf.cbw.bmFlags = 0 then
          { d2 with outEp := { d2.outEp with state := .stall } }
        else
          { d2 with inEp := { d2.inEp with state := .stall } }
      else d1
    else
      let d1 := SCSI_PutSenseCode d0 SCSI_SKEY_ILLEGAL_REQUEST SCSI_ASC_INVALID_CDB
      { d1 with
          itf := { d1.itf with state := .stall, status := .error }
          outEp := { d1.outEp with state := .stall }
          inEp := { d1.inEp with state := .stall } }
  else if d.itf.state = .dataOut then
    let d1 := SCSI_ProcessWrite d
    if d1.itf.cswStatus ≠ .passed then
      { d1 with
          itf := { d1.itf with state := .stall }
          outEp := { d1.outEp with state := .stall } }
    else if d1.itf.cswResidue = 0 then
      msc_sendCSW d1
    else d1
  else
    if d.itf.status = .normal then
      msc_sendCSW d
    else if d.itf.status = .recovery then
      let d1 := msc_receiveCBW d
      { d1 with itf := { d1.itf with status := .normal } }
    else d

/-- msc_inData (usbd_msc.c): completion of a bulk IN transfer.  DataIn
continues a READ10, stalling the IN endpoint if it failed; StatusIn and
Stall send the pending CSW when the status is normal. -/
def msc_inData (d : MscDev) : MscDev :=
  if d.itf.state = .dataIn then
    let d1 := SCSI_ProcessRead d
    if d1.itf.cswStatus ≠ .passed then
      { d1 with
          itf := { d1.itf with state := .stall }
          inEp := { d1.inEp with state := .stall } }
    else d1
  else if d.itf.state = .statusIn ∨ d.itf.state = .stall then
    if d.itf.status = .normal then msc_sendCSW d else d
  else d

/-- An IN completion as delivered by USBD_EpInCallback (usbd_ep.c): the
endpoint goes Idle, then the class callback runs. -/
def mscInCompletion (d : MscDev) : MscDev :=
  msc_inData { d with inEp := { d.inEp with state := .idle } }

/-- An OUT completion as delivered by USBD_EpOutCallback (usbd_ep.c): the
endpoint goes Idle with `rxLen` bytes received, then the class callback
runs. -/
def mscOutCompletion (d : MscDev) (rxLen : Nat) : MscDev :=
  msc_outData { d with outEp := { d.outEp with state := .idle, transferLen := rxLen } }

/-- Arrival of a block in CommandOut: the PD has written the received bytes
into `itf.CBW` and reports `rxLen` transferred bytes. -/
def mscCbwCompletion (d : MscDev) (rxLen : Nat) (cbw : MscCBW) : MscDev :=
  mscOutCompletion { d with itf := { d.itf with cbw := cbw } } rxLen

/-- The MSC_BOT_RESET branch of msc_setupStage (usbd_msc.c): the interface
status enters Recovery (the request is answered OK). -/
def msc_botReset (d : MscDev) : MscDev :=
  { d with itf := { d.itf with status := .recovery } }

/-- The CLEAR_FEATURE(EP_HALT) branch of USBD_EpRequest (usbd_ep.c) routed
to the MSC bulk IN endpoint: a halted endpoint returns to Idle with its
transfer length cleared and the interface's IN completion callback fires. -/
def msc_clearHaltIn (d : MscDev) : MscDev :=
  if d.inEp.state = .stall then
    msc_inData { d with inEp := { d.inEp with state := .idle, transferLen := 0 } }
  else d

/-- The CLEAR_FEATURE(EP_HALT) branch of USBD_EpRequest (usbd_ep.c) routed
to the MSC bulk OUT endpoint. -/
def msc_clearHaltOut (d : MscDev) : MscDev :=
  if d.outEp.state = .stall then
    msc_outData { d with outEp := { d.outEp with state := .idle, transferLen := 0 } }
  else d

/-- Drive the data and status phases of a dispatched command to completion:
each pending transfer on the active data endpoint completes (an OUT
completion delivers the armed length).  Stops in CommandOut (the CSW has
been sent and CBW reception re-armed) or in Stall. -/
def msc_runToCSW : Nat → MscDev → MscDev
  | 0, d => d
  | fuel + 1, d =>
    if d.itf.state = .dataIn ∨ d.itf.state = .statusIn then
      msc_runToCSW fuel (mscInCompletion d)
    else if d.itf.state = .dataOut then
      msc_runToCSW fuel (mscOutCompletion d d.outEp.transferLen)
    else d

/-- A full command: CBW arrival followed by the phases driven to completion. -/
def msc_runCommand (fuel : Nat) (d : MscDev) (rxLen : Nat) (cbw : MscCBW) : MscDev :=
  msc_runToCSW fuel (mscCbwCompletion d rxLen cbw)

/-- Total data bytes moved on the data endpoints, per the recorded events. -/
def mscDataBytes : List MscEv → Nat
  | [] => 0
  | .dataIn n :: evs => n + mscDataBytes evs
  | .dataOut n :: evs => n + mscDataBytes evs
  | .dispatch :: evs => mscDataBytes evs
  | .csw _ _ _ :: evs => mscDataBytes evs

/-- The residue bookkeeping invariant of a dispatched command with CBW data
length `L`: the CSW residue plus the data bytes moved so far always equals
`L`, and while a data phase is in progress the remaining SCSI length never
exceeds the residue. -/
def mscInv (L : Nat) (d : MscDev) : Prop :=
  d.itf.cswResidue + mscDataBytes d.events = L ∧
  ((d.itf.state = .dataIn ∨ d.itf.state = .dataOut) →
     d.itf.scsiRemLength ≤ d.itf.cswResidue)

/-! ## Concrete instances used by the witness and counterexample theorems -/

/-- A quiescent bulk endpoint handle. -/
def baseEp : EpHandle :=
  { transferLen := 0, mps := 64, ty := .bulk, state := .idle, ifNum := 0 }

/-- A neutral Setup packet. -/
def baseSetup : SetupPkt :=
  { recipient := .device, rkind := .standard, direction := .dOut,
    request := 0, value := 0, index := 0, length := 0 }

/-- A small configured-capable device: one interface, six endpoint slots. -/
def baseCoreDev : CoreDev :=
  { setup := baseSetup, configSelector := 0, ifCount := 1, ifAlts := [0],
    maxEpCount := 6, inEps := fun _ => baseEp, outEps := fun _ => baseEp,
    events := [] }

/-- Device carrying a `SET_CONFIGURATION` Setup packet with `wValue = 256`
(low byte zero). -/
def cexC8Dev : CoreDev :=
  { baseCoreDev with
      setup := { baseSetup with request := USB_REQ_SET_CONFIGURATION, value := 256 } }

/-- Device with configuration 1 active. -/
def cfg1CoreDev : CoreDev := { baseCoreDev with configSelector := 1 }

/-- Device carrying a `SET_CONFIGURATION` Setup packet with `wValue = 2`
(low byte above `USBD_MAX_CONFIGURATION_COUNT`). -/
def c8InvalidDev : CoreDev :=
  { baseCoreDev with
      setup := { baseSetup with request := USB_REQ_SET_CONFIGURATION, value := 2 } }

/-- Device amid an IN data stage on EP0: 64 of 100 requested bytes sent. -/
def ctrlInSampleDev : CoreDev :=
  { baseCoreDev with
      setup := { baseSetup with recipient := .iface, direction := .dIn, length := 100 },
      configSelector := 1,
      inEps := fun _ => { baseEp with mps := 64, transferLen := 64, ty := .control } }

/-- Device in the Setup stage of an IN control request (EP0 OUT = Setup). -/
def ctrlSetupSampleDev : CoreDev :=
  { baseCoreDev with
      setup := { baseSetup with direction := .dIn, length := 10 },
      configSelector := 1,
      outEps := fun _ => { baseEp with ty := .control, state := .setupSt } }

/-- Device whose IN endpoint 2 is mid-transfer (for the Busy path). -/
def busyEpSampleDev : CoreDev :=
  { baseCoreDev with inEps := fun _ => { baseEp with state := .data } }

/-- Configured device carrying `SET_FEATURE(EP_HALT)` for endpoint 0x81. -/
def epHaltSampleDev : CoreDev :=
  { baseCoreDev with
      configSelector := 1,
      setup := { baseSetup with
                   recipient := .endpoint
                   request := USB_REQ_SET_FEATURE
                   value := USB_FEATURE_EP_HALT
                   index := 0x81 } }

/-- Configured device carrying an endpoint request aimed at endpoint 0. -/
def ep0ReqSampleDev : CoreDev :=
  { baseCoreDev with
      configSelector := 1,
      setup := { baseSetup with
                   recipient := .endpoint
                   request := USB_REQ_SET_FEATURE
                   value := USB_FEATURE_EP_HALT
                   index := 0 } }

/-- An empty mount-time device: two interface slots, nothing claimed. -/
def mountSampleDev : MountDev :=
  { ifCount := 0, maxIfCount := 2, ifSlots := fun _ => none,
    eps := fun _ => { ty := .control, mps := 0, ifNum := 0 } }

/-- A ready, writable 512-byte-block logical unit with standard inquiry
data (AddLength 32, hence 36 inquiry bytes) and succeeding callbacks. -/
def sampleLU : LU :=
  { blockCount := 1024, blockSize := 512, ready := true, writable := true,
    inquiryAddLength := 32, readOk := true, writeOk := true }

/-- An idle MSC interface context waiting for a CBW. -/
def mscBaseItf : MscItf :=
  { cbw := { dSignature := 0, dTag := 0, dDataLength := 0, bmFlags := 0,
             bLUN := 0, bCBLength := 0, CB := [] },
    cswTag := 0, cswResidue := 0, cswStatus := .passed,
    state := .commandOut, status := .normal, senseKey := 0, senseAsc := 0,
    scsiAddress := 0, scsiRemLength := 0, maxLUN := 0 }

/-- Freshly initialized MSC function: CommandOut with the 31-byte CBW
reception armed on the bulk OUT endpoint. -/
def mscSampleDev : MscDev :=
  { inEp := baseEp,
    outEp := { baseEp with state := .data, transferLen := sizeofCBW },
    itf := mscBaseItf, lus := fun _ => sampleLU, events := [] }

/-- An INQUIRY CBW requesting 255 data bytes with allocation length 255:
the device's inquiry response is only 36 bytes (case Hi > Di). -/
def cbwInquiry : MscCBW :=
  { dSignature := cbwSignature, dTag := 0x1234, dDataLength := 255,
    bmFlags := 0x80, bLUN := 0, bCBLength := 6,
    CB := [0x12, 0, 0, 0, 0xFF, 0] }

/-- A CBW whose signature is wrong (scenario S4). -/
def cbwBadSig : MscCBW := { cbwInquiry with dSignature := 0x11111111 }

/-- A READ10 CBW for 4 blocks at LBA 0 (2048 bytes). -/
def cbwRead4 : MscCBW :=
  { dSignature := cbwSignature, dTag := 7, dDataLength := 2048,
    bmFlags := 0x80, bLUN := 0, bCBLength := 10,
    CB := [0x28, 0, 0, 0, 0, 0, 0, 0, 4, 0] }

/-- The NCM transmit scenario S5: connect, then
`alloc_datagram(100); set_datagram; alloc_datagram(100); set_datagram`,
then the notification IN transfer completes, emitting the NTB. -/
def ncmScenarioState : NcmIn :=
  (USBD_NCM_SetDatagram
    (USBD_NCM_AllocDatagram
      (USBD_NCM_SetDatagram
        (USBD_NCM_AllocDatagram (ncm_connectInit 2048) 100).2).2.1
      100).2).2.1

/-- The NTB emitted in scenario S5. -/
def ncmScenarioNTB : NTB :=
  ((ncm_inData ncmScenarioState false).2).getD
    { blockLength := 0, ndpIndex := 0, ndpLength := 0, entries := [], sentLen := 0 }

/-! ## Helper lemmas -/

theorem ite_min (a b : Nat) : (if b < a then b else a) = min a b := by
  split <;> omega

theorem nat_land_mask_zero (n k : Nat) : Nat.land n (2 ^ k - 1) = 0 ↔ 2 ^ k ∣ n := by
  have h : Nat.land n (2 ^ k - 1) = n % 2 ^ k := Nat.and_pow_two_sub_one_eq_mod n k
  rw [h]
  exact Nat.dvd_iff_mod_eq_zero.symm

/-! ## Claim theorems -/

/-- C4: for every endpoint and every call to `ep_send` or `ep_receive`, the
call returns Ok and transitions the endpoint state to Data if and only if the
endpoint's current state is Idle or its type is Isochronous; in all other
cases it returns Busy and the endpoint's state and transfer record are left
unchanged (the whole device is returned untouched). -/
theorem C4_ep_send_receive_accept (dev : CoreDev) (epAddr len : Nat) :
    (((USBD_EpSend dev epAddr len).1 = .ok ∧
        (((USBD_EpSend dev epAddr len).2).inEps (epAddr % 16)).state = .data) ↔
      ((dev.inEps (epAddr % 16)).state = .idle ∨
        (dev.inEps (epAddr % 16)).ty = .isochronous)) ∧
    (¬((dev.inEps (epAddr % 16)).state = .idle ∨
        (dev.inEps (epAddr % 16)).ty = .isochronous) →
      USBD_EpSend dev epAddr len = (.busy, dev)) ∧
    (((USBD_EpReceive dev epAddr len).1 = .ok ∧
        (((USBD_EpReceive dev epAddr len).2).outEps epAddr).state = .data) ↔
      ((dev.outEps epAddr).state = .idle ∨ (dev.outEps epAddr).ty = .isochronous)) ∧
    (¬((dev.outEps epAddr).state = .idle ∨ (dev.outEps epAddr).ty = .isochronous) →
      USBD_EpReceive dev epAddr len = (.busy, dev)) := by
  refine ⟨?_, ?_, ?_, ?_⟩
  · by_cases h : (dev.inEps (epAddr % 16)).state = .idle ∨
        (dev.inEps (epAddr % 16)).ty = .isochronous
    · simp [USBD_EpSend, h, epUpd]
    · simp [USBD_EpSend, h]
  · intro h; simp [USBD_EpSend, h]
  · by_cases h : (dev.outEps epAddr).state = .idle ∨
        (dev.outEps epAddr).ty = .isochronous
    · simp [USBD_EpReceive, h, epUpd]
    · simp [USBD_EpReceive, h]
  · intro h; simp [USBD_EpReceive, h]

/-- Witness for C4 at concrete inputs: endpoint 2 of `busyEpSampleDev` is
mid-transfer, so a send is rejected with Busy and nothing changes. -/
theorem C4_witness : USBD_EpSend busyEpSampleDev 0x82 64 = (.busy, busyEpSampleDev) :=
  (C4_ep_send_receive_accept busyEpSampleDev 0x82 64).2.1 (by decide)

/-- C7: calling `set_configuration(n)` with `n` equal to the device's current
configuration selector is a no-op: no interface init/deinit callbacks fire
and the device state is unchanged. -/
theorem C7_set_configuration_idempotent (dev : CoreDev) (cfgNum : Nat)
    (h : dev.configSelector = cfgNum) : USBD_IfConfig dev cfgNum = dev := by
  unfold USBD_IfConfig
  simp [h]

/-- Witness for C7: repeating configuration 1 on a configured device. -/
theorem C7_witness : USBD_IfConfig cfg1CoreDev 1 = cfg1CoreDev :=
  C7_set_configuration_idempotent cfg1CoreDev 1 rfl

/-- C9: `ctrl_send_data` / `ctrl_receive_data` return Error and start no EP0
transfer unless the Setup packet's direction matches the call and EP0 OUT is
in the Setup state; on success the queued EP0 transfer length is
`min(len, wLength)`. -/
theorem C9_ctrl_data_guards (dev : CoreDev) (len : Nat) :
    ((USBD_CtrlSendData dev len).1 = .ok ↔
       (dev.setup.direction = .dIn ∧ (dev.outEps 0).state = .setupSt)) ∧
    ((USBD_CtrlSendData dev len).1 ≠ .ok →
       USBD_CtrlSendData dev len = (.error, dev)) ∧
    ((USBD_CtrlSendData dev len).1 = .ok →
       (USBD_CtrlSendData dev len).2.events =
         dev.events ++ [.pdEpSend 0x80 (min len dev.setup.length)]) ∧
    ((USBD_CtrlReceiveData dev len).1 = .ok ↔
       (dev.setup.direction = .dOut ∧ (dev.outEps 0).state = .setupSt)) ∧
    ((USBD_CtrlReceiveData dev len).1 ≠ .ok →
       USBD_CtrlReceiveData dev len = (.error, dev)) ∧
    ((USBD_CtrlReceiveData dev len).1 = .ok →
       (USBD_CtrlReceiveData dev len).2.events =
         dev.events ++ [.pdEpReceive 0 (min len dev.setup.length)]) := by
  refine ⟨?_, ?_, ?_, ?_, ?_, ?_⟩ <;>
    by_cases h : dev.setup.direction = .dIn ∧ (dev.outEps 0).state = .setupSt
  · simp [USBD_CtrlSendData, h]
  · simp [USBD_CtrlSendData, h]
  · simp [USBD_CtrlSendData, h]
  · simp [USBD_CtrlSendData, h]
  · intro hok
    simp [USBD_CtrlSendData, h, ite_min]
  · intro hok
    exfalso
    simp [USBD_CtrlSendData, h] at hok
  · have h' : ¬(dev.setup.direction = .dOut ∧ (dev.outEps 0).state = .setupSt) := by
      rcases h with ⟨h1, _⟩
      rintro ⟨h2, _⟩
      rw [h1] at h2
      exact Dir.noConfusion h2
    simp [USBD_CtrlReceiveData, h']
  · by_cases h2 : dev.setup.direction = .dOut ∧ (dev.outEps 0).state = .setupSt
    · simp [USBD_CtrlReceiveData, h2]
    · simp [USBD_CtrlReceiveData, h2]
  · have h' : ¬(dev.setup.direction = .dOut ∧ (dev.outEps 0).state = .setupSt) := by
      rcases h with ⟨h1, _⟩
      rintro ⟨h2, _⟩
      rw [h1] at h2
      exact Dir.noConfusion h2
    simp [USBD_CtrlReceiveData, h']
  · by_cases h2 : dev.setup.direction = .dOut ∧ (dev.outEps 0).state = .setupSt
    · simp [USBD_CtrlReceiveData, h2]
    · simp [USBD_CtrlReceiveData, h2]
  · have h' : ¬(dev.setup.direction = .dOut ∧ (dev.outEps 0).state = .setupSt) := by
      rcases h with ⟨h1, _⟩
      rintro ⟨h2, _⟩
      rw [h1] at h2
      exact Dir.noConfusion h2
    intro hok
    exfalso
    simp [USBD_CtrlReceiveData, h'] at hok
  · by_cases h2 : dev.setup.direction = .dOut ∧ (dev.outEps 0).state = .setupSt
    · intro hok
      simp [USBD_CtrlReceiveData, h2, ite_min]
    · intro hok
      exfalso
      simp [USBD_CtrlReceiveData, h2] at hok

/-- Witness for C9: in the Setup stage of an IN request with `wLength = 10`,
sending 20 bytes queues exactly 10, and a receive call is rejected. -/
theorem C9_witness :
    (USBD_CtrlSendData ctrlSetupSampleDev 20).2.events =
      ctrlSetupSampleDev.events ++ [.pdEpSend 0x80 (min 20 ctrlSetupSampleDev.setup.length)] ∧
    USBD_CtrlReceiveData ctrlSetupSampleDev 20 = (.error, ctrlSetupSampleDev) :=
  ⟨(C9_ctrl_data_guards ctrlSetupSampleDev 20).2.2.1 (by decide),
   (C9_ctrl_data_guards ctrlSetupSampleDev 20).2.2.2.2.1 (by decide)⟩

/-- C8 (counterexample): with `wValue = 256` — which exceeds
`MAX_CONFIG_COUNT = 1` — the SET_CONFIGURATION handler still accepts the
request (the C code compares only the low byte), contradicting the claim that
every `wValue` above the limit is rejected. -/
theorem C8_counterexample :
    (USBD_SetConfig cexC8Dev).1 = .ok ∧
    USBD_MAX_CONFIGURATION_COUNT < cexC8Dev.setup.value := by
  constructor
  · rfl
  · decide

/-- C8 (amended): a standard device-recipient SET_CONFIGURATION request is
accepted (performing `set_configuration(wValue mod 256)` and returning Ok) if
and only if the low byte of wValue is at most MAX_CONFIG_COUNT; whenever the
low byte exceeds the limit the request is rejected as Invalid and EP0 is
stalled by the setup-dispatch tail. -/
theorem C8_set_configuration_low_byte (dev : CoreDev) :
    ((USBD_SetConfig dev).1 = .ok ↔
       dev.setup.value % 256 ≤ USBD_MAX_CONFIGURATION_COUNT) ∧
    ((USBD_SetConfig dev).1 = .ok →
       (USBD_SetConfig dev).2 = USBD_IfConfig dev (dev.setup.value % 256)) ∧
    (USBD_MAX_CONFIGURATION_COUNT < dev.setup.value % 256 →
       (USBD_SetConfig dev).1 = .invalid ∧
       ((USBD_SetupCallbackWith USBD_SetConfig dev).inEps 0).state = .stall ∧
       ((USBD_SetupCallbackWith USBD_SetConfig dev).outEps 0).state = .stall) := by
  by_cases h : dev.setup.value % 256 ≤ USBD_MAX_CONFIGURATION_COUNT
  · refine ⟨by simp [USBD_SetConfig, h], fun _ => by simp [USBD_SetConfig, h], fun hgt => ?_⟩
    omega
  · refine ⟨by simp [USBD_SetConfig, h], fun hok => ?_, fun _ => ?_⟩
    · exfalso
      simp [USBD_SetConfig, h] at hok
    · refine ⟨by simp [USBD_SetConfig, h], ?_, ?_⟩ <;>
        simp [USBD_SetupCallbackWith, USBD_SetConfig, USBD_CtrlSendError, h, epUpd]

/-- Witness for C8 (amended): accepted at `wValue = 0`; at `wValue = 2` the
request is Invalid and both EP0 halves end up stalled. -/
theorem C8_witness :
    ((USBD_SetConfig baseCoreDev).1 = .ok ↔
       baseCoreDev.setup.value % 256 ≤ USBD_MAX_CONFIGURATION_COUNT) ∧
    (USBD_SetConfig c8InvalidDev).1 = .invalid ∧
    ((USBD_SetupCallbackWith USBD_SetConfig c8InvalidDev).inEps 0).state = .stall :=
  ⟨(C8_set_configuration_low_byte baseCoreDev).1,
   ((C8_set_configuration_low_byte c8InvalidDev).2.2 (by decide)).1,
   ((C8_set_configuration_low_byte c8InvalidDev).2.2 (by decide)).2.1⟩

/-- C3: after an EP0 IN data stage of `n` bytes started by `ctrl_send_data`
(so the Setup direction is IN), the completion handler transmits an extra
zero-length packet exactly when `n < wLength` and `n` is a non-zero multiple
of the EP0 max packet size (a power of two); otherwise EP0 heads for the
status stage: the OUT status-stage ZLP reception is armed. -/
theorem C3_ctrl_in_zlp (dev : CoreDev) (k : Nat)
    (hdir : dev.setup.direction = .dIn)
    (hmps : (dev.inEps 0).mps = 2 ^ k) :
    (((dev.inEps 0).transferLen < dev.setup.length ∧
        (dev.inEps 0).mps ≤ (dev.inEps 0).transferLen ∧
        Nat.land (dev.inEps 0).transferLen ((dev.inEps 0).mps - 1) = 0) ↔
      ((dev.inEps 0).transferLen < dev.setup.length ∧
        0 < (dev.inEps 0).transferLen ∧ 2 ^ k ∣ (dev.inEps 0).transferLen)) ∧
    (((dev.inEps 0).transferLen < dev.setup.length ∧
        (dev.inEps 0).mps ≤ (dev.inEps 0).transferLen ∧
        Nat.land (dev.inEps 0).transferLen ((dev.inEps 0).mps - 1) = 0) →
      (USBD_CtrlInCallback dev).events = dev.events ++ [.pdEpSend 0x80 0]) ∧
    (¬((dev.inEps 0).transferLen < dev.setup.length ∧
        (dev.inEps 0).mps ≤ (dev.inEps 0).transferLen ∧
        Nat.land (dev.inEps 0).transferLen ((dev.inEps 0).mps - 1) = 0) →
      ((USBD_CtrlInCallback dev).outEps 0).state = .status ∧
      (USBD_CtrlInCallback dev).events.getLast? = some (.pdEpReceive 0 0)) := by
  refine ⟨?_, ?_, ?_⟩
  · rw [hmps]
    constructor
    · rintro ⟨h1, h2, h3⟩
      exact ⟨h1, lt_of_lt_of_le (Nat.pos_pow_of_pos k (by omega)) h2,
        (nat_land_mask_zero _ k).mp h3⟩
    · rintro ⟨h1, h2, h3⟩
      exact ⟨h1, Nat.le_of_dvd h2 h3, (nat_land_mask_zero _ k).mpr h3⟩
  · intro hcond
    simp [USBD_CtrlInCallback, hcond]
  · intro hcond
    by_cases hc : dev.configSelector ≠ 0 ∧ dev.setup.recipient = .iface <;>
      simp [USBD_CtrlInCallback, hcond, hdir, hc, USBD_CtrlReceiveStatus, epUpd]

/-- Witness for C3: 64 of 100 requested bytes sent with EP0 MPS 64 = 2^6
triggers the ZLP. -/
theorem C3_witness :
    (USBD_CtrlInCallback ctrlInSampleDev).events =
      ctrlInSampleDev.events ++ [.pdEpSend 0x80 0] :=
  (C3_ctrl_in_zlp ctrlInSampleDev 6 (by decide) (by decide)).2.1 (by decide)

/-- C10: standard endpoint-recipient requests addressing endpoint number 0
are rejected as Invalid in every device state, as is every endpoint-recipient
request while unconfigured (both causing an EP0 stall through the
setup-dispatch tail); any request honoured with Ok implies a non-zero
endpoint number below MAX_EP_COUNT and an active configuration. -/
theorem C10_endpoint_request_guards (dev : CoreDev) :
    (dev.setup.index % 256 % 16 = 0 → USBD_EpRequest dev = (.invalid, dev)) ∧
    (dev.configSelector = 0 → USBD_EpRequest dev = (.invalid, dev)) ∧
    ((USBD_EpRequest dev).1 = .ok →
       dev.setup.index % 256 % 16 ≠ 0 ∧
       dev.setup.index % 256 % 16 < dev.maxEpCount ∧
       dev.configSelector ≠ 0) ∧
    ((dev.setup.index % 256 % 16 = 0 ∨ dev.configSelector = 0) →
       ((USBD_SetupCallbackWith USBD_EpRequest dev).inEps 0).state = .stall ∧
       ((USBD_SetupCallbackWith USBD_EpRequest dev).outEps 0).state = .stall) := by
  refine ⟨?_, ?_, ?_, ?_⟩
  · intro h
    simp [USBD_EpRequest, h]
  · intro h
    simp [USBD_EpRequest, h]
  · intro hok
    by_cases hg : dev.maxEpCount ≤ dev.setup.index % 256 % 16 ∨
        dev.setup.index % 256 % 16 = 0 ∨ dev.configSelector = 0
    · exfalso
      simp [USBD_EpRequest, hg] at hok
    · push_neg at hg
      exact ⟨hg.2.1, hg.1, hg.2.2⟩
  · intro h
    have hg : dev.maxEpCount ≤ dev.setup.index % 256 % 16 ∨
        dev.setup.index % 256 % 16 = 0 ∨ dev.configSelector = 0 := by
      rcases h with h | h
      · exact Or.inr (Or.inl h)
      · exact Or.inr (Or.inr h)
    constructor <;>
      simp [USBD_SetupCallbackWith, USBD_EpRequest, USBD_CtrlSendError, hg, epUpd]

/-- Witness for C10: a halt request aimed at endpoint number 0 is Invalid,
and an honoured halt of endpoint 0x81 implies the guard conditions. -/
theorem C10_witness :
    USBD_EpRequest ep0ReqSampleDev = (.invalid, ep0ReqSampleDev) ∧
    (epHaltSampleDev.setup.index % 256 % 16 ≠ 0 ∧
      epHaltSampleDev.setup.index % 256 % 16 < epHaltSampleDev.maxEpCount ∧
      epHaltSampleDev.configSelector ≠ 0) :=
  ⟨(C10_endpoint_request_guards ep0ReqSampleDev).1 (by decide),
   (C10_endpoint_request_guards epHaltSampleDev).2.2.1 (by decide)⟩

/-- C6 (counterexample): mounting an MSC interface on an empty two-slot
device claims only ONE interface slot (`IfCount` becomes 1, slot 1 stays
empty), contradicting the claim that MSC, like CDC/NCM, claims two
consecutive slots. -/
theorem C6_counterexample :
    (USBD_MSC_MountInterface mountSampleDev 5 0x81 1).2.ifCount = 1 ∧
    (USBD_MSC_MountInterface mountSampleDev 5 0x81 1).2.ifSlots 0 = some 5 ∧
    (USBD_MSC_MountInterface mountSampleDev 5 0x81 1).2.ifSlots 1 = none ∧
    (1 : Nat) ≠ 2 := by
  refine ⟨?_, ?_, ?_, ?_⟩ <;> decide

/-- C6 (amended): `mount_interface` for the MSC class claims ONE slot in the
device's interface table (unlike CDC/NCM, which claim two consecutive slots
for their one logical function), writes type, max packet size and owning
interface number into the device's endpoint table for each claimed endpoint,
and returns Error when the device's interface slots are exhausted. -/
theorem C6_mount_slots (dev : MountDev) (itfId inE outE notE : Nat)
    (hio : inE ≠ outE) :
    (dev.ifCount < dev.maxIfCount →
       (USBD_MSC_MountInterface dev itfId inE outE).1 = .ok ∧
       (USBD_MSC_MountInterface dev itfId inE outE).2.ifCount = dev.ifCount + 1 ∧
       (USBD_MSC_MountInterface dev itfId inE outE).2.ifSlots dev.ifCount = some itfId ∧
       (USBD_MSC_MountInterface dev itfId inE outE).2.eps inE =
         { ty := .bulk, mps := MSC_DATA_PACKET_SIZE, ifNum := dev.ifCount } ∧
       (USBD_MSC_MountInterface dev itfId inE outE).2.eps outE =
         { ty := .bulk, mps := MSC_DATA_PACKET_SIZE, ifNum := dev.ifCount }) ∧
    (dev.maxIfCount ≤ dev.ifCount →
       USBD_MSC_MountInterface dev itfId inE outE = (.error, dev)) ∧
    (dev.ifCount < dev.maxIfCount - 1 →
       (USBD_NCM_MountInterface dev itfId notE inE outE).1 = .ok ∧
       (USBD_NCM_MountInterface dev itfId notE inE outE).2.ifCount = dev.ifCount + 2 ∧
       (USBD_NCM_MountInterface dev itfId notE inE outE).2.ifSlots dev.ifCount =
         some itfId ∧
       (USBD_NCM_MountInterface dev itfId notE inE outE).2.ifSlots (dev.ifCount + 1) =
         some itfId) ∧
    (dev.maxIfCount - 1 ≤ dev.ifCount →
       USBD_NCM_MountInterface dev itfId notE inE outE = (.error, dev)) := by
  refine ⟨fun h => ?_, fun h => ?_, fun h => ?_, fun h => ?_⟩
  · refine ⟨?_, ?_, ?_, ?_, ?_⟩ <;>
      simp [USBD_MSC_MountInterface, h, slotUpd, mountEpUpd, hio]
  · simp [USBD_MSC_MountInterface, Nat.not_lt.mpr h]
  · refine ⟨?_, ?_, ?_, ?_⟩ <;>
      simp [USBD_NCM_MountInterface, h, slotUpd, mountEpUpd]
  · simp [USBD_NCM_MountInterface, Nat.not_lt.mpr h]

/-- Witness for C6 (amended): a successful MSC mount on the empty device and
a successful NCM mount claiming slots 0 and 1. -/
theorem C6_witness :
    (USBD_MSC_MountInterface mountSampleDev 5 0x81 1).1 = .ok ∧
    (USBD_MSC_MountInterface mountSampleDev 5 0x81 1).2.ifCount =
      mountSampleDev.ifCount + 1 ∧
    (USBD_NCM_MountInterface mountSampleDev 9 0x82 0x81 1).2.ifCount =
      mountSampleDev.ifCount + 2 :=
  ⟨((C6_mount_slots mountSampleDev 5 0x81 1 0x82 (by decide)).1 (by decide)).1,
   ((C6_mount_slots mountSampleDev 5 0x81 1 0x82 (by decide)).1 (by decide)).2.1,
   ((C6_mount_slots mountSampleDev 9 0x81 1 0x82 (by decide)).2.2.1 (by decide)).2.1⟩

/-- C1 (counterexample): in the S5 scenario (two 100-byte datagrams), the
emitted NTB's BlockLength is 244, not the 228 the claim states; nor does it
equal `sizeof(NTH16) + NDP.Length + Σ roundup4(length)` (which is 232). -/
theorem C1_counterexample :
    ncmScenarioNTB.blockLength = 244 ∧ (244 : Nat) ≠ 228 ∧
    ncmScenarioNTB.blockLength ≠
      sizeofNTH16 + ncmScenarioNTB.ndpLength +
        (((ncmScenarioNTB.entries.dropLast.map Prod.snd).map align4).sum) := by
  refine ⟨?_, ?_, ?_⟩ <;> decide

/-- C1 (amended): for every NTB assembled by `ncm_sendNTB` from datagrams
reserved via `USBD_NCM_AllocDatagram` (so `In.Index` is `sizeof(NTH16)` plus
the rounded-up datagram lengths and `In.DgCount` counts them), the NTH16
BlockLength equals the byte count submitted to the PD send and equals
`2*sizeof(NTH16) + NDP16.Length + Σ roundup4(length)` — the header size is
counted twice because `In.Index` already includes it; the NDP entries start
at offset 12 with `offset[i+1] = roundup4(offset[i] + length[i])` and end
with the `(0,0)` terminator.  After two 100-byte datagrams the emitted NTB
has block_length 244 and NDP entries {12,100}, {112,100}, {0,0}. -/
theorem C1_ntb_block_length (s : NcmIn) (p : Nat)
    (hc : s.dgCount = s.dgLens.length)
    (hidx : s.index = sizeofNTH16 + (s.dgLens.map align4).sum) :
    (ncm_sendNTB s p).1.sentLen = (ncm_sendNTB s p).1.blockLength ∧
    (ncm_sendNTB s p).1.blockLength =
      2 * sizeofNTH16 + (ncm_sendNTB s p).1.ndpLength + (s.dgLens.map align4).sum ∧
    (ncm_sendNTB s p).1.ndpLength =
      sizeofNDP16 + s.dgLens.length * sizeofDatagram16 ∧
    (ncm_sendNTB s p).1.entries =
      ncmDatagramEntries sizeofNTH16 s.dgLens ++ [(0, 0)] ∧
    ncmScenarioNTB.blockLength = 244 ∧
    ncmScenarioNTB.entries = [(12, 100), (112, 100), (0, 0)] := by
  refine ⟨rfl, ?_, ?_, ?_, by decide, by decide⟩
  · show sizeofNTH16 + s.index + (sizeofNDP16 + s.dgCount * sizeofDatagram16) =
      2 * sizeofNTH16 + (sizeofNDP16 + s.dgCount * sizeofDatagram16) +
        (s.dgLens.map align4).sum
    rw [hidx]
    omega
  · show sizeofNDP16 + s.dgCount * sizeofDatagram16 =
      sizeofNDP16 + s.dgLens.length * sizeofDatagram16
    rw [hc]
  · show ncmDatagramEntries sizeofNTH16 (s.dgLens.take s.dgCount) ++ [(0, 0)] =
      ncmDatagramEntries sizeofNTH16 s.dgLens ++ [(0, 0)]
    rw [hc, List.take_length]

/-- Witness for C1 (amended) at the S5 state: its two datagrams are counted
and indexed exactly as the hypotheses require, and the block length relation
holds there. -/
theorem C1_witness :
    (ncm_sendNTB ncmScenarioState 0).1.blockLength =
      2 * sizeofNTH16 + (ncm_sendNTB ncmScenarioState 0).1.ndpLength +
        (ncmScenarioState.dgLens.map align4).sum :=
  (C1_ntb_block_length ncmScenarioState 0 (by decide) (by decide)).2.1

/-! ## MSC helper lemmas -/

theorem mscDataBytes_append (l1 l2 : List MscEv) :
    mscDataBytes (l1 ++ l2) = mscDataBytes l1 + mscDataBytes l2 := by
  induction l1 with
  | nil => simp [mscDataBytes]
  | cons e l ih => cases e <;> simp [mscDataBytes, ih] <;> omega

theorem verify10_itf_fields (d : MscDev) :
    (SCSI_Verify10 d).itf.cswResidue = d.itf.cswResidue ∧
    (SCSI_Verify10 d).itf.state = d.itf.state ∧
    (SCSI_Verify10 d).itf.cbw = d.itf.cbw ∧
    (SCSI_Verify10 d).events = d.events := by
  unfold SCSI_Verify10 SCSI_PutSenseCode
  split_ifs <;> exact ⟨rfl, rfl, rfl, rfl⟩

theorem testUnitReady_itf_fields (d : MscDev) :
    (SCSI_TestUnitReady d).itf.cswResidue = d.itf.cswResidue ∧
    (SCSI_TestUnitReady d).itf.state = d.itf.state ∧
    (SCSI_TestUnitReady d).itf.cbw = d.itf.cbw ∧
    (SCSI_TestUnitReady d).events = d.events := by
  unfold SCSI_TestUnitReady SCSI_PutSenseCode
  split_ifs <;> exact ⟨rfl, rfl, rfl, rfl⟩

theorem readCapacity10_itf_fields (d : MscDev) :
    (SCSI_ReadCapacity10 d).1.itf.cswResidue = d.itf.cswResidue ∧
    (SCSI_ReadCapacity10 d).1.itf.state = d.itf.state ∧
    (SCSI_ReadCapacity10 d).1.itf.cbw = d.itf.cbw ∧
    (SCSI_ReadCapacity10 d).1.events = d.events := by
  unfold SCSI_ReadCapacity10 SCSI_PutSenseCode
  split_ifs <;> exact ⟨rfl, rfl, rfl, rfl⟩

theorem processRead_cbw (d : MscDev) :
    (SCSI_ProcessRead d).itf.cbw = d.itf.cbw := by
  unfold SCSI_ProcessRead SCSI_PutSenseCode
  split_ifs <;> rfl

theorem processRead_state_commandOut (d : MscDev)
    (h : (SCSI_ProcessRead d).itf.state = .commandOut) :
    d.itf.state = .commandOut := by
  unfold SCSI_ProcessRead SCSI_PutSenseCode at h
  dsimp only at h
  split_ifs at h <;> exact h

theorem processRead_events_prefix (d : MscDev) :
    ∃ l, (SCSI_ProcessRead d).events = d.events ++ l := by
  unfold SCSI_ProcessRead SCSI_PutSenseCode
  dsimp only
  split_ifs <;>
    first
      | exact ⟨_, rfl⟩
      | exact ⟨[], (List.append_nil _).symm⟩

theorem processWrite_events_prefix (d : MscDev) :
    ∃ l, (SCSI_ProcessWrite d).events = d.events ++ l := by
  unfold SCSI_ProcessWrite SCSI_PutSenseCode
  dsimp only
  split_ifs <;>
    first
      | exact ⟨_, rfl⟩
      | exact ⟨[], (List.append_nil _).symm⟩

theorem read10_events_prefix (d : MscDev) :
    ∃ l, (SCSI_Read10 d).1.events = d.events ++ l := by
  unfold SCSI_Read10 SCSI_PutSenseCode
  dsimp only
  split_ifs <;>
    first
      | exact processRead_events_prefix _
      | exact ⟨[], (List.append_nil _).symm⟩

theorem write10_events (d : MscDev) : (SCSI_Write10 d).1.events = d.events := by
  unfold SCSI_Write10 SCSI_PutSenseCode
  dsimp only
  split_ifs <;> rfl

theorem scsiRespond_events_prefix (d : MscDev) (r : Nat) :
    ∃ l, (scsiRespond d r).events = d.events ++ l := by
  unfold scsiRespond
  dsimp only
  split_ifs <;>
    first
      | exact ⟨_, rfl⟩
      | exact ⟨[], (List.append_nil _).symm⟩

theorem scsiDispatch_events_prefix (d : MscDev) :
    ∃ l, (scsiDispatch d).1.events = d.events ++ l := by
  unfold scsiDispatch
  by_cases h1 : cbByte d 0 = 0x28
  · rw [if_pos h1]
    exact read10_events_prefix d
  rw [if_neg h1]
  by_cases h2 : cbByte d 0 = 0x2A
  · rw [if_pos h2]
    exact ⟨[], by rw [write10_events, List.append_nil]⟩
  rw [if_neg h2]
  by_cases h3 : cbByte d 0 = 0x2F
  · rw [if_pos h3]
    exact ⟨[], by rw [show ((SCSI_Verify10 d, 0) : MscDev × Nat).1.events =
      (SCSI_Verify10 d).events from rfl, (verify10_itf_fields d).2.2.2, List.append_nil]⟩
  rw [if_neg h3]
  by_cases h4 : cbByte d 0 = 0x12
  · rw [if_pos h4]
    exact ⟨[], (List.append_nil _).symm⟩
  rw [if_neg h4]
  by_cases h5 : cbByte d 0 = 0x23
  · rw [if_pos h5]
    exact ⟨[], (List.append_nil _).symm⟩
  rw [if_neg h5]
  by_cases h6 : cbByte d 0 = 0x00
  · rw [if_pos h6]
    exact ⟨[], by rw [show ((SCSI_TestUnitReady d, 0) : MscDev × Nat).1.events =
      (SCSI_TestUnitReady d).events from rfl, (testUnitReady_itf_fields d).2.2.2,
      List.append_nil]⟩
  rw [if_neg h6]
  by_cases h7 : cbByte d 0 = 0x03
  · rw [if_pos h7]
    exact ⟨[], (List.append_nil _).symm⟩
  rw [if_neg h7]
  by_cases h8 : cbByte d 0 = 0x1B
  · rw [if_pos h8]
    exact ⟨[], (List.append_nil _).symm⟩
  rw [if_neg h8]
  by_cases h9 : cbByte d 0 = 0x1E
  · rw [if_pos h9]
    exact ⟨[], (List.append_nil _).symm⟩
  rw [if_neg h9]
  by_cases h10 : cbByte d 0 = 0x1A
  · rw [if_pos h10]
    exact ⟨[], (List.append_nil _).symm⟩
  rw [if_neg h10]
  by_cases h11 : cbByte d 0 = 0x5A
  · rw [if_pos h11]
    exact ⟨[], (List.append_nil _).symm⟩
  rw [if_neg h11]
  by_cases h12 : cbByte d 0 = 0x25
  · rw [if_pos h12]
    exact ⟨[], by rw [(readCapacity10_itf_fields d).2.2.2, List.append_nil]⟩
  rw [if_neg h12]
  exact ⟨[], (List.append_nil _).symm⟩

theorem processCommand_events_prefix (d : MscDev) :
    ∃ l, (SCSI_ProcessCommand d).events = d.events ++ l := by
  obtain ⟨l1, hl1⟩ := scsiDispatch_events_prefix d
  obtain ⟨l2, hl2⟩ := scsiRespond_events_prefix (scsiDispatch d).1 (scsiDispatch d).2
  exact ⟨l1 ++ l2, by rw [SCSI_ProcessCommand, hl2, hl1, List.append_assoc]⟩

theorem sendCSW_events (d : MscDev) :
    (msc_sendCSW d).events =
      d.events ++ [.csw d.itf.cswTag d.itf.cswResidue d.itf.cswStatus] := rfl

/-! ## MSC residue invariant lemmas -/

theorem inv_processRead (L : Nat) (d : MscDev)
    (h1 : d.itf.cswResidue + mscDataBytes d.events = L)
    (hrem : d.itf.scsiRemLength ≤ d.itf.cswResidue) :
    mscInv L (SCSI_ProcessRead d) := by
  unfold SCSI_ProcessRead SCSI_PutSenseCode mscInv
  dsimp only
  split_ifs with hr hz
  · refine ⟨?_, ?_⟩
    · dsimp only
      rw [mscDataBytes_append]
      simp only [mscDataBytes]
      omega
    · intro hst
      rcases hst with h | h <;> simp at h
  · refine ⟨?_, ?_⟩
    · dsimp only
      rw [mscDataBytes_append]
      simp only [mscDataBytes]
      omega
    · intro _
      dsimp only
      omega
  · exact ⟨h1, fun _ => hrem⟩

theorem inv_processWrite (L : Nat) (d : MscDev)
    (h1 : d.itf.cswResidue + mscDataBytes d.events = L)
    (hrem : d.itf.scsiRemLength ≤ d.itf.cswResidue) :
    mscInv L (SCSI_ProcessWrite d) := by
  unfold SCSI_ProcessWrite SCSI_PutSenseCode mscInv
  dsimp only
  split_ifs with hw hz
  · refine ⟨?_, ?_⟩
    · dsimp only
      rw [mscDataBytes_append]
      simp only [mscDataBytes]
      omega
    · intro _
      dsimp only
      omega
  · refine ⟨?_, ?_⟩
    · dsimp only
      rw [mscDataBytes_append]
      simp only [mscDataBytes]
      omega
    · intro _
      dsimp only
      omega
  · exact ⟨h1, fun _ => hrem⟩

theorem inv_sendCSW (L : Nat) (d : MscDev) (h : mscInv L d) :
    mscInv L (msc_sendCSW d) := by
  obtain ⟨h1, _⟩ := h
  unfold msc_sendCSW msc_receiveCBW mscInv
  dsimp only
  refine ⟨?_, ?_⟩
  · rw [mscDataBytes_append]
    simp only [mscDataBytes]
    omega
  · intro hst
    rcases hst with h | h <;> simp at h

theorem inv_mscInCompletion (L : Nat) (d : MscDev) (h : mscInv L d) :
    mscInv L (mscInCompletion d) := by
  obtain ⟨h1, h2⟩ := h
  unfold mscInCompletion msc_inData
  dsimp only
  split_ifs with hs hfail hs2 hn
  · -- DataIn, READ10 continuation failed: endpoint stalled
    have hi : mscInv L (SCSI_ProcessRead
        { d with inEp := { d.inEp with state := .idle } }) :=
      inv_processRead L _ h1 (h2 (Or.inl hs))
    exact ⟨hi.1, fun hst => by rcases hst with h | h <;> simp at h⟩
  · -- DataIn, READ10 continues
    exact inv_processRead L _ h1 (h2 (Or.inl hs))
  · -- StatusIn or Stall with normal status: CSW sent
    exact inv_sendCSW L _ ⟨h1, h2⟩
  · exact ⟨h1, h2⟩
  · exact ⟨h1, h2⟩

theorem inv_mscOutCompletion_dataOut (L : Nat) (d : MscDev) (rx : Nat)
    (h : mscInv L d) (hs : d.itf.state = .dataOut) :
    mscInv L (mscOutCompletion d rx) := by
  obtain ⟨h1, h2⟩ := h
  unfold mscOutCompletion msc_outData
  dsimp only
  rw [if_neg (by simp [hs]), if_pos (by simp [hs])]
  have hi : mscInv L (SCSI_ProcessWrite
      { d with outEp := { d.outEp with state := .idle, transferLen := rx } }) :=
    inv_processWrite L _ h1 (h2 (Or.inr hs))
  split_ifs with hfail hres
  · exact ⟨hi.1, fun hst => by rcases hst with h | h <;> simp at h⟩
  · exact inv_sendCSW L _ hi
  · exact hi

/-- The facts each command handler guarantees when entered from a freshly
dispatched CBW: the invariant holds afterwards, the CBW data length is
untouched, and a handler that stays in CommandOut leaves residue and event
sum untouched. -/
def dispatchFacts (L : Nat) (e : MscDev) : Prop :=
  mscInv L e ∧ e.itf.cbw.dDataLength = L ∧
    (e.itf.state = .commandOut →
      e.itf.cswResidue = L ∧ mscDataBytes e.events = 0)

theorem dispatchFacts_self (L : Nat) (d : MscDev)
    (hres : d.itf.cswResidue = L) (hL : d.itf.cbw.dDataLength = L)
    (hstate : d.itf.state = .commandOut) (hsum : mscDataBytes d.events = 0) :
    dispatchFacts L d := by
  refine ⟨⟨by omega, fun hst => ?_⟩, hL, fun _ => ⟨hres, hsum⟩⟩
  rcases hst with h | h <;> rw [hstate] at h <;> simp at h

theorem dispatchFacts_of_fields (L : Nat) (d e : MscDev)
    (hfres : e.itf.cswResidue = d.itf.cswResidue)
    (hfst : e.itf.state = d.itf.state)
    (hfcbw : e.itf.cbw = d.itf.cbw)
    (hfev : e.events = d.events)
    (_hfrem : e.itf.scsiRemLength = d.itf.scsiRemLength)
    (hres : d.itf.cswResidue = L) (hL : d.itf.cbw.dDataLength = L)
    (hstate : d.itf.state = .commandOut) (hsum : mscDataBytes d.events = 0) :
    dispatchFacts L e := by
  refine ⟨⟨by rw [hfres, hfev]; omega, fun hst => ?_⟩, by rw [hfcbw]; exact hL,
    fun _ => ⟨by rw [hfres, hres], by rw [hfev, hsum]⟩⟩
  rcases hst with h | h <;> rw [hfst, hstate] at h <;> simp at h

theorem inv_scsiRespond (L : Nat) (d1 : MscDev) (respLen : Nat)
    (hf : dispatchFacts L d1) : mscInv L (scsiRespond d1 respLen) := by
  obtain ⟨hA, hB, hC⟩ := hf
  unfold scsiRespond
  dsimp only
  split_ifs with h
  · obtain ⟨hpass, hcmd, hpos⟩ := h
    obtain ⟨hres, hsum⟩ := hC hcmd
    refine ⟨?_, ?_⟩
    · dsimp only
      rw [mscDataBytes_append]
      simp only [mscDataBytes]
      have hle : min respLen d1.itf.cbw.dDataLength ≤ L := by
        rw [hB]
        exact min_le_right _ _
      omega
    · intro hst
      rcases hst with h | h <;> simp at h
  · exact hA

theorem read10_dispatchFacts (L : Nat) (d : MscDev)
    (hres : d.itf.cswResidue = L) (hL : d.itf.cbw.dDataLength = L)
    (hstate : d.itf.state = .commandOut) (hsum : mscDataBytes d.events = 0) :
    dispatchFacts L (SCSI_Read10 d).1 := by
  unfold SCSI_Read10 SCSI_PutSenseCode
  dsimp only
  split_ifs with h1 h2 h3 h4
  · exact dispatchFacts_self L _ hres hL hstate hsum
  · exact dispatchFacts_self L _ hres hL hstate hsum
  · exact dispatchFacts_self L _ hres hL hstate hsum
  · exact dispatchFacts_self L _ hres hL hstate hsum
  · -- successful READ10: counters programmed, first chunk sent
    rw [not_not] at h4
    have hrem : scsiTransferLen d * (mscLU d).blockSize ≤ L := by
      omega
    refine ⟨inv_processRead L _ (by dsimp only; omega) (by dsimp only; omega),
      by rw [processRead_cbw]; dsimp only; exact hL, fun hco => ?_⟩
    have := processRead_state_commandOut _ hco
    dsimp only at this
    simp at this

theorem write10_dispatchFacts (L : Nat) (d : MscDev)
    (hres : d.itf.cswResidue = L) (hL : d.itf.cbw.dDataLength = L)
    (hstate : d.itf.state = .commandOut) (hsum : mscDataBytes d.events = 0) :
    dispatchFacts L (SCSI_Write10 d).1 := by
  unfold SCSI_Write10 SCSI_PutSenseCode
  dsimp only
  split_ifs with h1 h2 h3 h4 h5
  · exact dispatchFacts_self L _ hres hL hstate hsum
  · exact dispatchFacts_self L _ hres hL hstate hsum
  · exact dispatchFacts_self L _ hres hL hstate hsum
  · exact dispatchFacts_self L _ hres hL hstate hsum
  · exact dispatchFacts_self L _ hres hL hstate hsum
  · -- successful WRITE10: counters programmed, first chunk reception armed
    rw [not_not] at h5
    refine ⟨⟨by dsimp only; omega, fun _ => by dsimp only; omega⟩, hL, fun hco => ?_⟩
    dsimp only at hco
    simp at hco

theorem inv_scsiDispatch (L : Nat) (d : MscDev)
    (hres : d.itf.cswResidue = L) (hL : d.itf.cbw.dDataLength = L)
    (hstate : d.itf.state = .commandOut) (hsum : mscDataBytes d.events = 0) :
    dispatchFacts L (scsiDispatch d).1 := by
  unfold scsiDispatch
  by_cases h1 : cbByte d 0 = 0x28
  · rw [if_pos h1]
    exact read10_dispatchFacts L d hres hL hstate hsum
  rw [if_neg h1]
  by_cases h2 : cbByte d 0 = 0x2A
  · rw [if_pos h2]
    exact write10_dispatchFacts L d hres hL hstate hsum
  rw [if_neg h2]
  by_cases h3 : cbByte d 0 = 0x2F
  · rw [if_pos h3]
    obtain ⟨f1, f2, f3, f4⟩ := verify10_itf_fields d
    exact dispatchFacts_of_fields L d _ f1 f2 f3 f4
      (by unfold SCSI_Verify10 SCSI_PutSenseCode; split_ifs <;> rfl)
      hres hL hstate hsum
  rw [if_neg h3]
  by_cases h4 : cbByte d 0 = 0x12
  · rw [if_pos h4]
    exact dispatchFacts_self L d hres hL hstate hsum
  rw [if_neg h4]
  by_cases h5 : cbByte d 0 = 0x23
  · rw [if_pos h5]
    exact dispatchFacts_self L d hres hL hstate hsum
  rw [if_neg h5]
  by_cases h6 : cbByte d 0 = 0x00
  · rw [if_pos h6]
    obtain ⟨f1, f2, f3, f4⟩ := testUnitReady_itf_fields d
    exact dispatchFacts_of_fields L d _ f1 f2 f3 f4
      (by unfold SCSI_TestUnitReady SCSI_PutSenseCode; split_ifs <;> rfl)
      hres hL hstate hsum
  rw [if_neg h6]
  by_cases h7 : cbByte d 0 = 0x03
  · rw [if_pos h7]
    exact dispatchFacts_self L d hres hL hstate hsum
  rw [if_neg h7]
  by_cases h8 : cbByte d 0 = 0x1B
  · rw [if_pos h8]
    exact dispatchFacts_self L d hres hL hstate hsum
  rw [if_neg h8]
  by_cases h9 : cbByte d 0 = 0x1E
  · rw [if_pos h9]
    exact dispatchFacts_self L d hres hL hstate hsum
  rw [if_neg h9]
  by_cases h10 : cbByte d 0 = 0x1A
  · rw [if_pos h10]
    exact dispatchFacts_self L d hres hL hstate hsum
  rw [if_neg h10]
  by_cases h11 : cbByte d 0 = 0x5A
  · rw [if_pos h11]
    exact dispatchFacts_self L d hres hL hstate hsum
  rw [if_neg h11]
  by_cases h12 : cbByte d 0 = 0x25
  · rw [if_pos h12]
    obtain ⟨f1, f2, f3, f4⟩ := readCapacity10_itf_fields d
    exact dispatchFacts_of_fields L d _ f1 f2 f3 f4
      (by unfold SCSI_ReadCapacity10 SCSI_PutSenseCode; split_ifs <;> rfl)
      hres hL hstate hsum
  rw [if_neg h12]
  exact dispatchFacts_of_fields L d _ rfl rfl rfl rfl rfl hres hL hstate hsum

theorem inv_ProcessCommand (L : Nat) (d : MscDev)
    (hres : d.itf.cswResidue = L) (hL : d.itf.cbw.dDataLength = L)
    (hstate : d.itf.state = .commandOut) (hsum : mscDataBytes d.events = 0) :
    mscInv L (SCSI_ProcessCommand d) :=
  inv_scsiRespond L _ _ (inv_scsiDispatch L d hres hL hstate hsum)

theorem inv_runToCSW (fuel : Nat) (L : Nat) (d : MscDev) (h : mscInv L d) :
    mscInv L (msc_runToCSW fuel d) := by
  induction fuel generalizing d with
  | zero => simpa [msc_runToCSW] using h
  | succ n ih =>
    unfold msc_runToCSW
    split_ifs with hio hdo
    · exact ih _ (inv_mscInCompletion L d h)
    · exact ih _ (inv_mscOutCompletion_dataOut L d _ h hdo)
    · exact h

theorem inv_dispatch (d : MscDev) (rx : Nat) (cbw : MscCBW)
    (hstate : d.itf.state = .commandOut) (hev : d.events = []) :
    mscInv cbw.dDataLength (mscCbwCompletion d rx cbw) := by
  unfold mscCbwCompletion mscOutCompletion msc_outData
  dsimp only
  rw [if_pos hstate]
  by_cases hval : cbwValid cbw rx d.itf.maxLUN
  · rw [if_pos hval]
    have hpc := inv_ProcessCommand cbw.dDataLength
      { d with
          outEp := { d.outEp with state := .idle, transferLen := rx }
          itf := { d.itf with
                     cbw := cbw
                     cswTag := cbw.dTag
                     cswResidue := cbw.dDataLength
                     cswStatus := .passed }
          events := d.events ++ [.dispatch] }
      rfl rfl hstate (by rw [hev]; rfl)
    split_ifs with h0 hf
    · exact inv_sendCSW _ _ hpc
    · exact ⟨hpc.1, fun hst => by rcases hst with h | h <;> simp at h⟩
    · exact ⟨hpc.1, fun hst => by rcases hst with h | h <;> simp at h⟩
    · exact hpc
  · rw [if_neg hval]
    refine ⟨?_, fun hst => by rcases hst with h | h <;> simp at h⟩
    dsimp only
    rw [hev]
    rfl

theorem head_processCommand_dispatch (y : MscDev) (hy : y.events = [MscEv.dispatch]) :
    (SCSI_ProcessCommand y).events.head? = some .dispatch := by
  obtain ⟨l, hl⟩ := processCommand_events_prefix y
  rw [hl, hy]
  rfl

theorem head_sendCSW_dispatch (y : MscDev)
    (hy : y.events.head? = some .dispatch) :
    (msc_sendCSW y).events.head? = some .dispatch := by
  rw [sendCSW_events]
  cases h : y.events with
  | nil => rw [h] at hy; exact absurd hy (by simp)
  | cons a t =>
    rw [h] at hy
    simp only [List.head?_cons, Option.some.injEq] at hy
    simp [hy]

/-- C2: in state CommandOut, a completed bulk OUT block is dispatched to the
SCSI layer as a CBW if and only if its transfer length is exactly 31 bytes,
its signature is 0x43425355, its LUN is at most MaxLUN and its CB length is
1..16; on violation the device records sense (IllegalRequest, InvalidCdb),
stalls both bulk endpoints and enters state Stall with status Error, and a
BULK_ONLY_RESET followed by CLEAR_FEATURE on the endpoints re-arms CBW
reception, while the CLEAR_FEATUREs alone do not. -/
theorem C2_cbw_validity (d : MscDev) (rxLen : Nat) (cbw : MscCBW)
    (hstate : d.itf.state = .commandOut) (hev : d.events = []) :
    ((mscCbwCompletion d rxLen cbw).events.head? = some .dispatch ↔
       cbwValid cbw rxLen d.itf.maxLUN) ∧
    (¬cbwValid cbw rxLen d.itf.maxLUN →
       (mscCbwCompletion d rxLen cbw).itf.senseKey = SCSI_SKEY_ILLEGAL_REQUEST ∧
       (mscCbwCompletion d rxLen cbw).itf.senseAsc = SCSI_ASC_INVALID_CDB ∧
       (mscCbwCompletion d rxLen cbw).itf.state = .stall ∧
       (mscCbwCompletion d rxLen cbw).itf.status = .error ∧
       (mscCbwCompletion d rxLen cbw).inEp.state = .stall ∧
       (mscCbwCompletion d rxLen cbw).outEp.state = .stall) ∧
    (¬cbwValid cbw rxLen d.itf.maxLUN →
       (msc_clearHaltOut (msc_clearHaltIn
          (msc_botReset (mscCbwCompletion d rxLen cbw)))).itf.state = .commandOut ∧
       (msc_clearHaltOut (msc_clearHaltIn
          (msc_botReset (mscCbwCompletion d rxLen cbw)))).itf.status = .normal ∧
       (msc_clearHaltOut (msc_clearHaltIn
          (msc_botReset (mscCbwCompletion d rxLen cbw)))).outEp.state = .data ∧
       (msc_clearHaltOut (msc_clearHaltIn
          (msc_botReset (mscCbwCompletion d rxLen cbw)))).outEp.transferLen =
         sizeofCBW) ∧
    (¬cbwValid cbw rxLen d.itf.maxLUN →
       (msc_clearHaltOut (msc_clearHaltIn
          (mscCbwCompletion d rxLen cbw))).outEp.state = .idle ∧
       (msc_clearHaltOut (msc_clearHaltIn
          (mscCbwCompletion d rxLen cbw))).itf.state = .stall ∧
       (msc_clearHaltOut (msc_clearHaltIn
          (mscCbwCompletion d rxLen cbw))).itf.status = .error) := by
  obtain ⟨dIn, dOut, ditf, dlus, devts⟩ := d
  obtain ⟨cbw0, tag0, res0, cst0, st0, stat0, sk0, sa0, ad0, rem0, ml0⟩ := ditf
  dsimp only at hstate hev ⊢
  subst hstate
  subst hev
  by_cases hval : cbwValid cbw rxLen ml0
  · refine ⟨?_, fun hc => absurd hval hc, fun hc => absurd hval hc,
      fun hc => absurd hval hc⟩
    refine iff_of_true ?_ hval
    unfold mscCbwCompletion mscOutCompletion msc_outData
    dsimp only
    rw [if_pos rfl, if_pos hval]
    split_ifs with h0 hf hbm
    · exact head_sendCSW_dispatch _ (head_processCommand_dispatch _ rfl)
    · exact head_processCommand_dispatch _ rfl
    · exact head_processCommand_dispatch _ rfl
    · exact head_processCommand_dispatch _ rfl
  · have hB : mscCbwCompletion
        ⟨dIn, dOut, ⟨cbw0, tag0, res0, cst0, .commandOut, stat0, sk0, sa0, ad0,
          rem0, ml0⟩, dlus, []⟩ rxLen cbw =
        ⟨{ dIn with state := .stall },
         { dOut with state := .stall, transferLen := rxLen },
         ⟨cbw, cbw.dTag, cbw.dDataLength, .failed, .stall, .error,
           SCSI_SKEY_ILLEGAL_REQUEST, SCSI_ASC_INVALID_CDB, ad0, rem0, ml0⟩,
         dlus, []⟩ := by
      unfold mscCbwCompletion mscOutCompletion msc_outData SCSI_PutSenseCode
      dsimp only
      rw [if_pos rfl, if_neg hval]
    refine ⟨?_, fun _ => ?_, fun _ => ?_, fun _ => ?_⟩
    · refine iff_of_false ?_ hval
      rw [hB]
      simp
    · rw [hB]
      exact ⟨rfl, rfl, rfl, rfl, rfl, rfl⟩
    · rw [hB]
      exact ⟨rfl, rfl, rfl, rfl⟩
    · rw [hB]
      exact ⟨rfl, rfl, rfl⟩

/-- Witness for C2 at concrete inputs: a good INQUIRY CBW is dispatched, and
a wrong-signature CBW leaves the interface stalled in Error status. -/
theorem C2_witness :
    ((mscCbwCompletion mscSampleDev 31 cbwInquiry).events.head? = some .dispatch ↔
       cbwValid cbwInquiry 31 mscSampleDev.itf.maxLUN) ∧
    (mscCbwCompletion mscSampleDev 31 cbwBadSig).itf.state = .stall ∧
    (msc_clearHaltOut (msc_clearHaltIn
       (msc_botReset (mscCbwCompletion mscSampleDev 31 cbwBadSig)))).outEp.state =
      .data :=
  ⟨(C2_cbw_validity mscSampleDev 31 cbwInquiry rfl rfl).1,
   ((C2_cbw_validity mscSampleDev 31 cbwBadSig rfl rfl).2.1 (by decide)).2.2.1,
   ((C2_cbw_validity mscSampleDev 31 cbwBadSig rfl rfl).2.2.1 (by decide)).2.2.1⟩

/-- C5 (counterexample): a valid INQUIRY CBW with `data_length = 255` but a
36-byte inquiry response completes with CSW status Passed after transferring
only 36 bytes on the data endpoints — not the claimed exact `data_length`
(the CSW residue is 219 = 255 − 36). -/
theorem C5_counterexample :
    (msc_runCommand 8 mscSampleDev 31 cbwInquiry).itf.cswStatus = .passed ∧
    cbwInquiry.dDataLength = 255 ∧ 0 < cbwInquiry.dDataLength ∧
    mscDataBytes (msc_runCommand 8 mscSampleDev 31 cbwInquiry).events = 36 ∧
    (36 : Nat) ≠ 255 ∧
    (msc_runCommand 8 mscSampleDev 31 cbwInquiry).itf.cswResidue = 219 := by
  refine ⟨?_, ?_, ?_, ?_, ?_, ?_⟩ <;> decide

/-- C5 (amended): for every dispatched MSC CBW, at most `data_length` bytes
are transferred on the data endpoints before the CSW, and the CSW residue
always equals the CBW `data_length` minus the data bytes actually
transferred (residue + transferred = data_length). -/
theorem C5_residue_invariant (fuel : Nat) (d : MscDev) (rx : Nat) (cbw : MscCBW)
    (hstate : d.itf.state = .commandOut) (hev : d.events = []) :
    (msc_runCommand fuel d rx cbw).itf.cswResidue +
      mscDataBytes (msc_runCommand fuel d rx cbw).events = cbw.dDataLength ∧
    mscDataBytes (msc_runCommand fuel d rx cbw).events ≤ cbw.dDataLength := by
  unfold msc_runCommand
  have h1 := inv_runToCSW fuel cbw.dDataLength _ (inv_dispatch d rx cbw hstate hev)
  have h2 := h1.1
  exact ⟨h2, by omega⟩

/-- Witness for C5 (amended): the INQUIRY command run satisfies
residue + transferred = data_length (219 + 36 = 255). -/
theorem C5_witness :
    (msc_runCommand 8 mscSampleDev 31 cbwInquiry).itf.cswResidue +
      mscDataBytes (msc_runCommand 8 mscSampleDev 31 cbwInquiry).events =
        cbwInquiry.dDataLength :=
  (C5_residue_invariant 8 mscSampleDev 31 cbwInquiry rfl rfl).1

end USBDev
